import Mathlib

/-!
# Verification of the cold-email enrichment pipelines

Shallow embedding of the enrichment pipeline scripts under `execution/`
(`validate_websites.py`, `check_gtm_adwords.py`, `analyze_pagespeed.py`,
`find_emails.py`, `outscraper_find_emails.py`) and proofs about the
pipeline-level claims: completeness, order preservation, retry bounds,
rate limiting, cost gating, error classification, ineligible-record
bypass, field resolution and result invariants.

Conventions of the embedding:
* A record ("lead") is an association list of string key/value pairs,
  mirroring the JSON/spreadsheet rows the scripts operate on.  Python's
  `dict.get`, truthiness of strings (`None`/`""` are falsy) and in-place
  assignment are modelled explicitly.
* Network I/O is abstracted by oracles: a function from the attempt
  number (and, in batch functions, the record index) to the outcome of
  the HTTP call (`ok status_code payload`, `timeout`, `sslError`, ...).
  Every other part of the control flow is translated directly from the
  Python source.
* Python string operations (`strip`, `lower`, `startswith`, `replace`,
  `split`) are modelled on the character list of the string so that all
  definitions evaluate inside the kernel.
* The human-readable `*_status_message` strings (built with f-string
  float formatting from exception text) are abstracted away; the
  machine-read `*_status` fields are modelled exactly.
-/

/-! ## Python string primitives -/

/-- Python `str.lower()`. -/
def pyLower (s : String) : String := String.mk (s.data.map Char.toLower)

/-- Python `str.upper()`. -/
def pyUpper (s : String) : String := String.mk (s.data.map Char.toUpper)

/-- Python `str.strip()` with no argument: remove leading and trailing whitespace. -/
def pyStrip (s : String) : String :=
  String.mk (((s.data.dropWhile Char.isWhitespace).reverse.dropWhile Char.isWhitespace).reverse)

/-- Python `str.startswith(p)`. -/
def strStartsWith (s p : String) : Bool := s.data.take p.data.length == p.data

/-- Drop the first `n` characters of a string. -/
def strDrop (s : String) (n : Nat) : String := String.mk (s.data.drop n)

/-- Python `str.rstrip('/')`: remove all trailing `/` characters. -/
def rstripSlash (s : String) : String :=
  String.mk ((s.data.reverse.dropWhile (· == '/')).reverse)

/-- Worker for `replaceAllS`; the fuel argument (the length of the text)
makes the recursion structural so it evaluates in the kernel. -/
def replaceAllGo (pat rep : List Char) : Nat → List Char → List Char
  | _, [] => []
  | 0, l => l
  | fuel + 1, c :: rest =>
    if !pat.isEmpty && ((c :: rest).take pat.length == pat) then
      rep ++ replaceAllGo pat rep fuel ((c :: rest).drop pat.length)
    else
      c :: replaceAllGo pat rep fuel rest

/-- Python `str.replace(pat, rep)`: replace every (non-overlapping,
left-to-right) occurrence. -/
def replaceAllS (s pat rep : String) : String :=
  String.mk (replaceAllGo pat.data rep.data s.data.length s.data)

/-- Python `url.split(c)[0]` guarded by `if c in url`, as written in
`extract_domain`: the text before the first occurrence of `c`. -/
def pySplitHead (s : String) (c : Char) : String :=
  if s.data.contains c then String.mk (s.data.takeWhile (· ≠ c)) else s

/-- Python `x or y` on strings where the empty string is falsy
(absent dictionary keys are modelled as `""`, merging `None` with `""`;
both are falsy, so the chain behaves identically). -/
def pyOrS (a b : String) : String := if a ≠ "" then a else b

/-! ## Records (leads) -/

/-- A lead: an ordered association list of string key/value pairs,
the shape of a JSON object / spreadsheet row. -/
abbrev Lead := List (String × String)

/-- Python `lead.get(k)`: the value of the first binding of `k`, if present. -/
def leadFind (l : Lead) (k : String) : Option String :=
  (l.find? (fun p => p.1 == k)).map (·.2)

/-- Python `lead.get(k) or ''`: lookup with default empty string. -/
def leadGetD (l : Lead) (k : String) : String := (leadFind l k).getD ""

/-- Python `lead[k] = v`: replace the binding of `k` in place if present,
otherwise append a new binding (dictionary insertion order). -/
def leadSet (l : Lead) (k v : String) : Lead :=
  if l.any (fun p => p.1 == k) then
    l.map (fun p => if p.1 == k then (k, v) else p)
  else
    l ++ [(k, v)]

/-! ## FieldResolver: `get_website_url` (validate_websites.py) -/

/-- `validate_websites.get_website_url`: the Python `or`-chain picks the
first *truthy* (present and non-empty, before trimming) candidate value,
then strips it, upgrades `http://` to `https://` (first-occurrence
replacement, guarded by `startswith`), and prefixes `https://` when no
`http` prefix is present. -/
def get_website_url (lead : Lead) : String :=
  let website :=
    pyOrS (leadGetD lead "companyWebsite")
      (pyOrS (leadGetD lead "company_website")
        (pyOrS (leadGetD lead "website")
          (pyOrS (leadGetD lead "companyDomain")
            (pyOrS (leadGetD lead "company_domain")
              (pyOrS (leadGetD lead "domain")
                (pyOrS (leadGetD lead "Company Website")
                  (leadGetD lead "Company Domain")))))))
  let website := pyStrip website
  let website :=
    if strStartsWith website "http://" then "https://" ++ strDrop website 7 else website
  if website ≠ "" ∧ ¬ strStartsWith website "http" then "https://" ++ website else website

/-! ## FieldResolver: `get_website_from_lead` (check_gtm_adwords.py and
analyze_pagespeed.py define this function identically) -/

/-- The candidate key list of `get_website_from_lead`. -/
def website_fields : List String :=
  ["companyWebsite", "company_website", "website",
   "companyDomain", "company_domain", "domain",
   "Company Website"]

/-- URL normalization inside `get_website_from_lead`: add `https://`
unless an `http://`/`https://` prefix is present, then strip trailing
slashes. -/
def normalizeWebsite (w : String) : String :=
  let w :=
    if ¬ (strStartsWith w "http://" ∨ strStartsWith w "https://") then "https://" ++ w else w
  rstripSlash w

/-- The loop of `get_website_from_lead` over the candidate keys:
`if field in lead and lead[field]`, strip, and only a value that is
still non-empty after stripping is returned (whitespace-only values are
passed over). -/
def get_website_from_lead_go (lead : Lead) : List String → Option String
  | [] => none
  | field :: rest =>
    match leadFind lead field with
    | some v =>
      if v ≠ "" then
        let website := pyStrip v
        if website ≠ "" then some (normalizeWebsite website)
        else get_website_from_lead_go lead rest
      else get_website_from_lead_go lead rest
    | none => get_website_from_lead_go lead rest

/-- `get_website_from_lead` as in `check_gtm_adwords.py` /
`analyze_pagespeed.py`. -/
def get_website_from_lead (lead : Lead) : Option String :=
  get_website_from_lead_go lead website_fields

/-! ## FieldResolver: `get_field_value` and `extract_domain`
(find_emails.py; outscraper_find_emails.py defines them identically) -/

/-- `find_emails.get_field_value`: returns the *stripped* value of the
first candidate key whose raw value is truthy; a whitespace-only value
is selected (it is truthy) and yields the empty string. -/
def get_field_value (lead : Lead) : List String → String
  | [] => ""
  | k :: rest =>
    match leadFind lead k with
    | some v => if v ≠ "" then pyStrip v else get_field_value lead rest
    | none => get_field_value lead rest

/-- `find_emails.extract_domain`: strip, lower-case, delete every
occurrence of `http://`, `https://` and `www.`, then cut at the first
`/` and `?`. -/
def extract_domain (url : String) : String :=
  if url = "" then ""
  else
    let url := pyLower (pyStrip url)
    let url := replaceAllS (replaceAllS (replaceAllS url "http://" "") "https://" "") "www." ""
    let url := pySplitHead url '/'
    let url := pySplitHead url '?'
    url

/-- Modelled from the spec (§4.1 FieldResolver): "Tries each candidate
key in priority order; returns the first present non-empty value after
trimming whitespace."  Reference definition used to compare the three
concrete resolvers against the specified behaviour. -/
def resolveSpecFirst (lead : Lead) : List String → Option String
  | [] => none
  | k :: rest =>
    let t := pyStrip (leadGetD lead k)
    if t ≠ "" then some t else resolveSpecFirst lead rest

/-! ## CallExecutor: `validate_website` (validate_websites.py)

The HTTP layer is abstracted by an oracle mapping the retry count of the
attempt to its outcome.  The `HEAD`-then-`GET`-on-405 detail is folded
into a single outcome per attempt (the oracle reports the final response
of the attempt), and the Cloudflare/CloudFront detection on body/headers
is reported as two booleans of the outcome. -/

/-- Outcome of one HTTP attempt of `validate_website`. -/
inductive VwOutcome where
  /-- a response was obtained: status code plus whether the
  body/headers identify Cloudflare resp. CloudFront -/
  | ok (code : Nat) (isCloudflare isCloudfront : Bool)
  /-- `requests.exceptions.SSLError` (certificate failure or other) -/
  | sslError
  /-- `requests.exceptions.Timeout` -/
  | timeout
  /-- other `RequestException`; the booleans tell whether the message
  mentions Cloudflare resp. CloudFront -/
  | reqExc (msgCloudflare msgCloudfront : Bool)
  /-- any other exception -/
  | otherExc
  deriving DecidableEq

/-- Recursion of `validate_website` over the retry budget.  `rc` is the
Python `retry_count`; `remaining` equals `max_retries - retry_count`, so
the guard `retry_count < max_retries` is `remaining > 0` and the
recursion is structural.  Returns the terminal status string and the
number of attempts (HTTP calls) performed. -/
def vwGo (oracle : Nat → VwOutcome) (rc : Nat) : Nat → String × Nat
  | 0 =>
    -- retry budget exhausted (`retry_count < max_retries` is false):
    -- every branch is terminal
    match oracle rc with
    | .ok code cf cfr =>
      if 200 ≤ code ∧ code < 300 then ("valid", 1)
      else if cf || cfr then
        if code = 403 ∨ code = 429 then ("blocked", 1)
        else ("invalid", 1)
      else ("invalid", 1)
    | .sslError => ("ssl_error", 1)
    | .timeout => ("timeout", 1)
    | .reqExc cf cfr =>
      if cf then ("blocked", 1)
      else if cfr then ("blocked", 1)
      else ("unknown", 1)
    | .otherExc => ("unknown", 1)
  | r + 1 =>
    -- `retry_count < max_retries` still holds: transient branches recurse
    match oracle rc with
    | .ok code cf cfr =>
      if 200 ≤ code ∧ code < 300 then ("valid", 1)
      else if cf || cfr then
        if code = 403 ∨ code = 429 then
          let p := vwGo oracle (rc + 1) r; (p.1, p.2 + 1)
        else ("invalid", 1)
      else ("invalid", 1)
    | .sslError => ("ssl_error", 1)
    | .timeout => let p := vwGo oracle (rc + 1) r; (p.1, p.2 + 1)
    | .reqExc cf cfr =>
      if cf then let p := vwGo oracle (rc + 1) r; (p.1, p.2 + 1)
      else if cfr then let p := vwGo oracle (rc + 1) r; (p.1, p.2 + 1)
      else let p := vwGo oracle (rc + 1) r; (p.1, p.2 + 1)
    | .otherExc => let p := vwGo oracle (rc + 1) r; (p.1, p.2 + 1)

/-- `validate_websites.validate_website`: terminal status together with
the number of HTTP attempts made.  An empty URL short-circuits to
`no_url` with zero attempts. -/
def validate_website (oracle : Nat → VwOutcome) (url : String) (max_retries : Nat) :
    String × Nat :=
  if url = "" then ("no_url", 0) else vwGo oracle 0 max_retries

/-- The terminal statuses `validate_website` can produce. -/
def vwStatuses : List String :=
  ["no_url", "valid", "blocked", "invalid", "ssl_error", "timeout", "unknown"]

/-- Annotation of a lead by the completion handler of
`validate_websites_batch` (the human-readable
`website_status_message` is abstracted away). -/
def vwAnnot (lead : Lead) (status : String) : Lead :=
  leadSet lead "website_status" status

/-! ## WorkerPool / Aggregator: `validate_websites_batch`

`url_lead_pairs = [(i, get_website_url(lead), lead) for i, lead ...]`
is submitted wholesale to the `ThreadPoolExecutor` (one future per
record, including records with no URL), each completion mutates its own
lead, and the output is rebuilt by sorting the pairs by the original
index.  `sortByIdx` models Python's stable `sorted(..., key=lambda x: x[0])`. -/

/-- Python `sorted(pairs, key=lambda x: x[0])` (stable). -/
def sortByIdx {α : Type} (l : List (Nat × α)) : List (Nat × α) :=
  List.insertionSort (fun a b => a.1 ≤ b.1) l

/-- The `url_lead_pairs` list of `validate_websites_batch`: every record
is enumerated and submitted, whether or not a URL was resolved. -/
def vwSubmitted (leads : List Lead) : List (Nat × String × Lead) :=
  leads.enum.map (fun p => (p.1, get_website_url p.2, p.2))

/-- The per-record completions: lead `i` annotated with the terminal
status of `validate_website` on its URL.  The batch oracle maps the
record index to that record's per-attempt oracle. -/
def vwComps (oracle : Nat → Nat → VwOutcome) (max_retries : Nat) (leads : List Lead) :
    List (Nat × Lead) :=
  leads.enum.map
    (fun p => (p.1, vwAnnot p.2 (validate_website (oracle p.1) (get_website_url p.2) max_retries).1))

/-- `validate_websites.validate_websites_batch`: all records are
annotated by their completions and the output is the pairs sorted back
into original index order. -/
def validate_websites_batch (oracle : Nat → Nat → VwOutcome) (max_retries : Nat)
    (leads : List Lead) : List Lead :=
  (sortByIdx (vwComps oracle max_retries leads)).map (·.2)

/-- The annotated record `validate_websites_batch` is expected to place
at the position of `lead`. -/
def vwExpected (oracle : Nat → Nat → VwOutcome) (max_retries : Nat) (i : Nat)
    (lead : Lead) : Lead :=
  vwAnnot lead (validate_website (oracle i) (get_website_url lead) max_retries).1

/-! ## CallExecutor: `detect_gtm_and_ads` (check_gtm_adwords.py)

The HTTP layer is an oracle from the attempt number to the outcome of
`requests.get`, plus the outcome of the plain-HTTP fallback request
issued on an SSL error.  The regex content detectors are explicitly out
of the specified scope ("regex-based content detectors" are external
collaborators), so they are abstracted as functions on the lower-cased
HTML. -/

/-- Outcome of one `requests.get` inside `detect_gtm_and_ads`. -/
inductive HttpOutcome where
  | ok (code : Nat) (html : String)
  | sslError
  | timeout
  | connError
  | exc
  deriving DecidableEq

/-- Oracle for `detect_gtm_and_ads`: the outcome of the main request of
each attempt and the response of the plain-HTTP fallback on an SSL error
(`none` models the fallback request itself raising). -/
structure DetOracle where
  fetch : Nat → HttpOutcome
  fallback : Nat → Option (Nat × String)

/-- The regex detectors of `check_gtm_adwords.py`, abstracted: each
function is applied to the lower-cased HTML and reports the matched
group (for identifier-extracting patterns) or whether any pattern of the
group matched. -/
structure Detectors where
  /-- `googletagmanager.com/gtm.js?id=(gtm-...)` -/
  gtmPat1 : String → Option String
  /-- `googletagmanager.com/ns.html?id=(gtm-...)` -/
  gtmPat2 : String → Option String
  /-- `gtag('config', '(aw-...)')` -/
  adsConfig : String → Option String
  /-- legacy `google_conversion_id` -/
  legacyConv : String → Bool
  /-- `googletagmanager.com/gtag/js?id=aw-` present -/
  gtagJsAw : String → Bool
  /-- the `(aw-...)` group of the gtag.js pattern -/
  gtagJsId : String → Option String
  /-- any of the conversion-tracking patterns -/
  conversionAny : String → Bool
  /-- any of the remarketing patterns -/
  remarketingAny : String → Bool

/-- The result dictionary of `detect_gtm_and_ads`. -/
structure DetectResult where
  gtm_installed : Bool
  gtm_container_id : Option String
  google_ads_detected : Bool
  google_ads_account_id : Option String
  conversion_tracking : Bool
  remarketing_tag : Bool
  status : String
  deriving DecidableEq

/-- The initial result value (also the value returned when every attempt
fails): everything false/absent with status `failed`. -/
def failedResult : DetectResult :=
  { gtm_installed := false
    gtm_container_id := none
    google_ads_detected := false
    google_ads_account_id := none
    conversion_tracking := false
    remarketing_tag := false
    status := "failed" }

/-- The detection body run on a 200 response, mirroring the sequence of
regex checks of the source (GTM patterns, the three Google Ads patterns,
conversion tracking, remarketing), ending with status `analyzed`. -/
def analyzeHtml (det : Detectors) (rawHtml : String) : DetectResult :=
  let html := pyLower rawHtml
  let r := failedResult
  let r :=
    match det.gtmPat1 html with
    | some g => { r with gtm_installed := true, gtm_container_id := some (pyUpper g) }
    | none =>
      match det.gtmPat2 html with
      | some g => { r with gtm_installed := true, gtm_container_id := some (pyUpper g) }
      | none => r
  let r :=
    match det.adsConfig html with
    | some a => { r with google_ads_detected := true, google_ads_account_id := some (pyUpper a) }
    | none => r
  let r := if det.legacyConv html then { r with google_ads_detected := true } else r
  let r :=
    if det.gtagJsAw html then
      let r := { r with google_ads_detected := true }
      match det.gtagJsId html with
      | some a =>
        if r.google_ads_account_id = none then
          { r with google_ads_account_id := some (pyUpper a) }
        else r
      | none => r
    else r
  let r := if det.conversionAny html then { r with conversion_tracking := true } else r
  let r := if det.remarketingAny html then { r with remarketing_tag := true } else r
  { r with status := "analyzed" }

/-- The retry loop `for attempt in range(max_retries)` of
`detect_gtm_and_ads` (`max_retries = 2`), with `fuel` the number of
remaining loop iterations and `made` the number of HTTP requests issued
so far.  A non-200 response falls through to the next attempt (`continue`);
an SSL error triggers one plain-HTTP fallback request whose 200 response
is declared `analyzed` *without* re-running the detection (the source
comments "Same detection logic - simplified for brevity" but only sets
the status); timeouts retry; connection errors and other exceptions
`break` out of the loop. -/
def detGo (oracle : DetOracle) (det : Detectors) (attempt : Nat) (made : Nat) :
    Nat → DetectResult × Nat
  | 0 => (failedResult, made)
  | fuel + 1 =>
    match oracle.fetch attempt with
    | .ok code html =>
      if code ≠ 200 then detGo oracle det (attempt + 1) (made + 1) fuel
      else (analyzeHtml det html, made + 1)
    | .sslError =>
      match oracle.fallback attempt with
      | some (code, _) =>
        if code = 200 then ({ failedResult with status := "analyzed" }, made + 2)
        else detGo oracle det (attempt + 1) (made + 2) fuel
      | none => detGo oracle det (attempt + 1) (made + 2) fuel
    | .timeout => detGo oracle det (attempt + 1) (made + 1) fuel
    | .connError => (failedResult, made + 1)
    | .exc => (failedResult, made + 1)

/-- `check_gtm_adwords.detect_gtm_and_ads`: result dictionary plus the
number of HTTP requests issued; `max_retries = 2` as in the source. -/
def detect_gtm_and_ads (oracle : DetOracle) (det : Detectors) : DetectResult × Nat :=
  detGo oracle det 0 0 2

/-- Boolean form of the implicit result invariant of
`detect_gtm_and_ads`: the status is `analyzed` or `failed`, a container
id is only present when `gtm_installed`, and an Ads account id is only
present when `google_ads_detected`. -/
def detResultInvariant (r : DetectResult) : Bool :=
  (r.status == "analyzed" || r.status == "failed") &&
  (!r.gtm_container_id.isSome || r.gtm_installed) &&
  (!r.google_ads_account_id.isSome || r.google_ads_detected)

/-! ## WorkerPool / Aggregator: `analyze_leads` (check_gtm_adwords.py) -/

namespace CheckGtm

/-- The completion handler's annotation of a lead with a detection
result: booleans become `'TRUE'`/`'FALSE'`, identifiers default to `''`. -/
def gtmAnnot (lead : Lead) (r : DetectResult) : Lead :=
  let lead := leadSet lead "gtm_installed" (if r.gtm_installed then "TRUE" else "FALSE")
  let lead := leadSet lead "gtm_container_id" (r.gtm_container_id.getD "")
  let lead := leadSet lead "google_ads_detected" (if r.google_ads_detected then "TRUE" else "FALSE")
  let lead := leadSet lead "google_ads_account_id" (r.google_ads_account_id.getD "")
  let lead := leadSet lead "conversion_tracking" (if r.conversion_tracking then "TRUE" else "FALSE")
  let lead := leadSet lead "remarketing_tag" (if r.remarketing_tag then "TRUE" else "FALSE")
  leadSet lead "tracking_analysis_status" r.status

/-- The up-front annotation of a lead without a website ("Handle leads
without websites immediately"): empty detection fields and status
`no_website`. -/
def gtmAnnotNW (lead : Lead) : Lead :=
  let lead := leadSet lead "gtm_installed" ""
  let lead := leadSet lead "gtm_container_id" ""
  let lead := leadSet lead "google_ads_detected" ""
  let lead := leadSet lead "google_ads_account_id" ""
  let lead := leadSet lead "conversion_tracking" ""
  let lead := leadSet lead "remarketing_tag" ""
  leadSet lead "tracking_analysis_status" "no_website"

/-- The `url_lead_pairs` of `check_gtm_adwords.analyze_leads`: only
records with a resolvable website are submitted to the pool. -/
def url_lead_pairs (leads : List Lead) : List (Nat × String × Lead) :=
  leads.enum.filterMap (fun p => (get_website_from_lead p.2).map (fun w => (p.1, w, p.2)))

/-- The eligible records with their completion annotations, keyed by
original index.  The batch oracle maps the record index to that
record's HTTP oracle. -/
def eligPairs (oracle : Nat → DetOracle) (det : Detectors) (leads : List Lead) :
    List (Nat × Lead) :=
  leads.enum.filterMap (fun p =>
    match get_website_from_lead p.2 with
    | some _ => some (p.1, gtmAnnot p.2 (detect_gtm_and_ads (oracle p.1) det).1)
    | none => none)

/-- The `no_website_leads` pairs, annotated up front. -/
def ineligPairs (leads : List Lead) : List (Nat × Lead) :=
  leads.enum.filterMap (fun p =>
    match get_website_from_lead p.2 with
    | some _ => none
    | none => some (p.1, gtmAnnotNW p.2))

/-- `check_gtm_adwords.analyze_leads`: partition into eligible and
no-website records, annotate both, and rebuild the output by sorting
the concatenated pairs by original index (the source's
`sorted([(idx, lead) ...] + no_website_leads, key=lambda x: x[0])`).
When no record has a website the source returns the (already annotated)
input list directly. -/
def analyze_leads (oracle : Nat → DetOracle) (det : Detectors) (leads : List Lead) :
    List Lead :=
  if (url_lead_pairs leads).isEmpty then leads.map gtmAnnotNW
  else (sortByIdx (eligPairs oracle det leads ++ ineligPairs leads)).map (·.2)

/-- The annotated record `analyze_leads` is expected to place at the
position of `lead`. -/
def gtmExpect (oracle : Nat → DetOracle) (det : Detectors) (i : Nat) (lead : Lead) : Lead :=
  match get_website_from_lead lead with
  | some _ => gtmAnnot lead (detect_gtm_and_ads (oracle i) det).1
  | none => gtmAnnotNW lead

end CheckGtm

/-! ## CallExecutor: `analyze_pagespeed` (analyze_pagespeed.py) -/

/-- Outcome of one request to the PageSpeed API: a response with status
code and the parsed scores (already converted to 0–100), a timeout, or
any other exception. -/
inductive PsOutcome where
  | ok (code : Nat) (perf seo : Option Nat)
  | timeout
  | exc
  deriving DecidableEq

/-- The `for attempt in range(max_retries)` loop of `analyze_pagespeed`
(`max_retries = 3`): 429 sleeps and retries, any other non-200 response
fails immediately, 200 succeeds, a timeout retries, any other exception
fails immediately; the loop running out of attempts fails.  Returns
`(performance_score, seo_score, status)` plus the number of requests
issued. -/
def psGo (oracle : Nat → PsOutcome) (attempt made : Nat) :
    Nat → (Option Nat × Option Nat × String) × Nat
  | 0 => ((none, none, "failed"), made)
  | fuel + 1 =>
    match oracle attempt with
    | .ok code perf seo =>
      if code = 429 then psGo oracle (attempt + 1) (made + 1) fuel
      else if code ≠ 200 then ((none, none, "failed"), made + 1)
      else ((perf, seo, "analyzed"), made + 1)
    | .timeout => psGo oracle (attempt + 1) (made + 1) fuel
    | .exc => ((none, none, "failed"), made + 1)

/-- `analyze_pagespeed.analyze_pagespeed` with `max_retries = 3`. -/
def analyze_pagespeed (oracle : Nat → PsOutcome) :
    (Option Nat × Option Nat × String) × Nat :=
  psGo oracle 0 0 3

/-! ## RateLimiter: the request-window bookkeeping of
`analyze_pagespeed.analyze_leads`

The sequential loop is simulated with an explicit clock in
milliseconds: `time.sleep` advances the clock by the requested amount
and the k-th dispatched API call advances it by `dur k` (the call's
wall-clock duration, an oracle — the "test double" of the spec).  The
constants of the source: a 100 s (100000 ms) window, a trigger at
`MAX_REQUESTS_PER_100_SEC - 10` entries, a wait of
`100 - (current_time - request_times[0]) + 1` seconds, and a
`SAFE_DELAY` of 0.67 s slept between requests whenever the *next* lead
has a website.  Dispatch timestamps are recorded in `log` (the
instrumentation the spec's testable property asks for); the source
itself appends the post-call time to `request_times`. -/

/-- The configured API ceiling (`MAX_REQUESTS_PER_100_SEC = 400`). -/
def MAX_REQUESTS_PER_100_SEC : Nat := 400

/-- State of the `analyze_leads` rate-limiting loop. -/
structure PsState where
  /-- current clock, in ms -/
  now : Nat
  /-- `request_times`: post-call timestamps, oldest first -/
  reqTimes : List Nat
  /-- dispatch timestamps of every API call issued (instrumentation) -/
  log : List Nat
  /-- number of API calls dispatched so far (keys the duration oracle) -/
  k : Nat
  deriving DecidableEq

/-- One iteration of the loop body for a lead that has a website:
prune entries older than 100 s, on `len(request_times) >= 400 - 10`
sleep until one second past the oldest entry's window exit and clear
the list, dispatch the call, append the post-call time, and sleep
`SAFE_DELAY` when the next lead has a website. -/
def psLeadStep (dur : Nat → Nat) (s : PsState) (nextHasWebsite : Bool) : PsState :=
  let rt := s.reqTimes.filter (fun t => s.now - t < 100000)
  let trigger := decide (MAX_REQUESTS_PER_100_SEC - 10 ≤ rt.length)
  let now := if trigger then s.now + (100000 - (s.now - rt.headD 0) + 1000) else s.now
  let rt := if trigger then [] else rt
  let dispatchAt := now
  let now := now + dur s.k
  let rt := rt ++ [now]
  let now := if nextHasWebsite then now + 670 else now
  { now := now, reqTimes := rt, log := dispatchAt :: s.log, k := s.k + 1 }

/-- The loop of `analyze_pagespeed.analyze_leads` over the lead list
(the per-record annotation is independent of the rate limiting and is
not tracked here; only the timing behaviour is). -/
def psRun (dur : Nat → Nat) (s : PsState) : List Lead → PsState
  | [] => s
  | lead :: rest =>
    match get_website_from_lead lead with
    | none => psRun dur s rest
    | some _ =>
      let nextHasWebsite :=
        match rest.head? with
        | some l2 => (get_website_from_lead l2).isSome
        | none => false
      psRun dur (psLeadStep dur s nextHasWebsite) rest

/-- The initial state of a run. -/
def psInit : PsState := { now := 0, reqTimes := [], log := [], k := 0 }

/-- Number of dispatch timestamps falling in the 100 s (100000 ms)
window starting at `start`. -/
def windowCount (log : List Nat) (start : Nat) : Nat :=
  (log.filter (fun t => start ≤ t ∧ t < start + 100000)).length

/-! ## Email enrichment: `enrich_leads` (find_emails.py) -/

namespace FindEmails

/-- The statistics dictionary of `find_emails.enrich_leads`. -/
structure FeStats where
  total : Nat
  processed : Nat
  skipped_existing : Nat
  skipped_missing_fields : Nat
  emails_found : Nat
  emails_not_found : Nat
  deriving DecidableEq

/-- Candidate keys for the first name. -/
def feKeysFirst : List String := ["firstName", "first_name", "personFirstName"]

/-- Candidate keys for the last name. -/
def feKeysLast : List String := ["lastName", "last_name", "personLastName"]

/-- Candidate keys for the domain. -/
def feKeysDomain : List String :=
  ["companyWebsite", "company_website", "website",
   "companyDomain", "company_domain", "domain"]

/-- Candidate keys for an existing email. -/
def feKeysEmail : List String := ["email", "personEmail", "person_email"]

/-- The loop body of `enrich_leads` over `leads_to_process`.  The
AnyMailFinder API is an oracle from the loop index to
`some (email, confidence, verified)` or `none` (not found / API error).
Returns the output list, the statistics and the number of API calls
made. -/
def feGo (api : Nat → Option (String × Nat × Bool)) (skip_existing : Bool) :
    Nat → FeStats → List Lead → List Lead × FeStats × Nat
  | _, st, [] => ([], st, 0)
  | i, st, lead :: rest =>
    let first_name := get_field_value lead feKeysFirst
    let last_name := get_field_value lead feKeysLast
    let domain := extract_domain (get_field_value lead feKeysDomain)
    let existing_email := get_field_value lead feKeysEmail
    if skip_existing ∧ existing_email ≠ "" then
      let r := feGo api skip_existing (i + 1)
        { st with skipped_existing := st.skipped_existing + 1 } rest
      (lead :: r.1, r.2.1, r.2.2)
    else if first_name = "" ∨ last_name = "" ∨ domain = "" then
      let r := feGo api skip_existing (i + 1)
        { st with skipped_missing_fields := st.skipped_missing_fields + 1 } rest
      (lead :: r.1, r.2.1, r.2.2)
    else
      match api i with
      | some ecv =>
        let lead := leadSet lead "email" ecv.1
        let lead := leadSet lead "email_confidence" (toString ecv.2.1)
        let lead := leadSet lead "email_verified" (toString ecv.2.2)
        let r := feGo api skip_existing (i + 1)
          { st with emails_found := st.emails_found + 1, processed := st.processed + 1 } rest
        (lead :: r.1, r.2.1, r.2.2 + 1)
      | none =>
        let r := feGo api skip_existing (i + 1)
          { st with emails_not_found := st.emails_not_found + 1, processed := st.processed + 1 } rest
        (lead :: r.1, r.2.1, r.2.2 + 1)

/-- `find_emails.enrich_leads`: processes only `leads[:max_leads]`; the
output list is rebuilt from exactly the processed slice. -/
def enrich_leads (api : Nat → Option (String × Nat × Bool)) (leads : List Lead)
    (max_leads : Nat) (skip_existing : Bool) : List Lead × FeStats × Nat :=
  let st0 : FeStats :=
    { total := leads.length, processed := 0, skipped_existing := 0,
      skipped_missing_fields := 0, emails_found := 0, emails_not_found := 0 }
  feGo api skip_existing 0 st0 (leads.take max_leads)

/-- The affirmative test of `ask_permission`:
`input().strip().lower() in ['yes', 'y']`. -/
def affirmative (resp : String) : Bool :=
  let r := pyLower (pyStrip resp)
  r == "yes" || r == "y"

end FindEmails

/-- Observable effects of a paid-API pipeline run: how many external
API calls were dispatched and whether an output artefact was written. -/
structure RunTrace where
  apiCalls : Nat
  outputWritten : Bool
  deriving DecidableEq

namespace FindEmails

/-- `find_emails.main` from the cost gate on: `ask_permission` calls
`sys.exit(0)` unless the response is affirmative (no API call has been
made at that point and no output is written); otherwise `enrich_leads`
runs and the result is saved. -/
def find_emails_main (resp : String) (api : Nat → Option (String × Nat × Bool))
    (leads : List Lead) (max_leads : Nat) (skip_existing : Bool) : RunTrace :=
  if affirmative resp then
    let r := enrich_leads api leads max_leads skip_existing
    { apiCalls := r.2.2, outputWritten := true }
  else
    { apiCalls := 0, outputWritten := false }

end FindEmails

/-! ## Email enrichment: `enrich_leads` (outscraper_find_emails.py) -/

namespace Outscraper

/-- Candidate keys for the domain (note the order differs from
find_emails.py). -/
def osKeysDomain : List String :=
  ["companyWebsite", "website", "companyDomain", "domain",
   "company_website", "company_domain"]

/-- The `leads_with_domains` filter of `outscraper_find_emails.enrich_leads`. -/
def leads_with_domains (leads : List Lead) : List (Lead × String) :=
  leads.filterMap (fun lead =>
    let domain := extract_domain (get_field_value lead osKeysDomain)
    if domain ≠ "" then some (lead, domain) else none)

/-- `outscraper_find_emails.enrich_leads` up to its observable API
usage: the filtering and `leads_to_process = leads_with_domains[:max_leads]`
happen first (no API call), then the cost prompt; a response other than
`'yes'` (stripped, lower-cased) aborts with `sys.exit(0)` (`none`),
otherwise every lead of `leads_to_process` is dispatched to the pool
for exactly one `emails_and_contacts` call.  The per-lead annotation is
not needed by any claim and is not tracked. -/
def enrich_leads (resp : String) (leads : List Lead) (max_leads : Nat) : Option Nat :=
  let leads_to_process := (leads_with_domains leads).take max_leads
  if pyLower (pyStrip resp) ≠ "yes" then none
  else some leads_to_process.length

/-- `outscraper_find_emails.main` from the gate on: an aborted
`enrich_leads` terminates the process with no API calls and no output;
otherwise the enriched leads are saved. -/
def outscraper_main (resp : String) (leads : List Lead) (max_leads : Nat) : RunTrace :=
  match enrich_leads resp leads max_leads with
  | none => { apiCalls := 0, outputWritten := false }
  | some calls => { apiCalls := calls, outputWritten := true }

end Outscraper

/-! ### A concrete run refuting the windowed rate bound

406 website leads interleaved with website-less leads (the `SAFE_DELAY`
sleep between requests is skipped when the next lead has no website),
with the first 390 API calls lasting 256 ms each and the rest completing
instantly.  The limiter triggers at the 391st dispatch (the pruned
window holds 390 entries), sleeps until one second past the oldest
entry's window exit, and *clears the whole list*, forgetting 389
timestamps that are still inside the trailing window; the 16
instantaneous dispatches that follow therefore land in a 100 s window
that already saw 385 dispatches, for a total of 401 > 400.

The run is evaluated in chunks of 58 website leads from explicit
intermediate states so that each kernel evaluation stays shallow. -/

/-- A lead with a website. -/
def lwC4 : Lead := [("website", "a")]

/-- A lead without a website. -/
def lnC4 : Lead := []

/-- `n` copies of the pair (website lead, website-less lead). -/
def c4Chunk (n : Nat) : List Lead := (List.replicate n [lwC4, lnC4]).flatten

/-- The input collection of the refuting run. -/
def leadsC4 : List Lead := c4Chunk 406

/-- Wall-clock duration (ms) of the k-th API call in the refuting run. -/
def durC4 : Nat → Nat := fun k => if k < 390 then 256 else 0

/-- State of the refuting run after 0 website leads. -/
def c4S0 : PsState :=
  { now := 0, reqTimes := [],
    log := [], k := 0 }

/-- State of the refuting run after 58 website leads. -/
def c4S1 : PsState :=
  { now := 14848, reqTimes := [256, 512, 768, 1024, 1280, 1536, 1792, 2048, 2304, 2560, 2816, 3072, 3328, 3584, 3840, 4096, 4352, 4608, 4864, 5120, 5376, 5632, 5888, 6144, 6400, 6656, 6912, 7168, 7424, 7680, 7936, 8192, 8448, 8704, 8960, 9216, 9472, 9728, 9984, 10240, 10496, 10752, 11008, 11264, 11520, 11776, 12032, 12288, 12544, 12800, 13056, 13312, 13568, 13824, 14080, 14336, 14592, 14848],
    log := [14592, 14336, 14080, 13824, 13568, 13312, 13056, 12800, 12544, 12288, 12032, 11776, 11520, 11264, 11008, 10752, 10496, 10240, 9984, 9728, 9472, 9216, 8960, 8704, 8448, 8192, 7936, 7680, 7424, 7168, 6912, 6656, 6400, 6144, 5888, 5632, 5376, 5120, 4864, 4608, 4352, 4096, 3840, 3584, 3328, 3072, 2816, 2560, 2304, 2048, 1792, 1536, 1280, 1024, 768, 512, 256, 0], k := 58 }

/-- State of the refuting run after 116 website leads. -/
def c4S2 : PsState :=
  { now := 29696, reqTimes := [256, 512, 768, 1024, 1280, 1536, 1792, 2048, 2304, 2560, 2816, 3072, 3328, 3584, 3840, 4096, 4352, 4608, 4864, 5120, 5376, 5632, 5888, 6144, 6400, 6656, 6912, 7168, 7424, 7680, 7936, 8192, 8448, 8704, 8960, 9216, 9472, 9728, 9984, 10240, 10496, 10752, 11008, 11264, 11520, 11776, 12032, 12288, 12544, 12800, 13056, 13312, 13568, 13824, 14080, 14336, 14592, 14848, 15104, 15360, 15616, 15872, 16128, 16384, 16640, 16896, 17152, 17408, 17664, 17920, 18176, 18432, 18688, 18944, 19200, 19456, 19712, 19968, 20224, 20480, 20736, 20992, 21248, 21504, 21760, 22016, 22272, 22528, 22784, 23040, 23296, 23552, 23808, 24064, 24320, 24576, 24832, 25088, 25344, 25600, 25856, 26112, 26368, 26624, 26880, 27136, 27392, 27648, 27904, 28160, 28416, 28672, 28928, 29184, 29440, 29696],
    log := [29440, 29184, 28928, 28672, 28416, 28160, 27904, 27648, 27392, 27136, 26880, 26624, 26368, 26112, 25856, 25600, 25344, 25088, 24832, 24576, 24320, 24064, 23808, 23552, 23296, 23040, 22784, 22528, 22272, 22016, 21760, 21504, 21248, 20992, 20736, 20480, 20224, 19968, 19712, 19456, 19200, 18944, 18688, 18432, 18176, 17920, 17664, 17408, 17152, 16896, 16640, 16384, 16128, 15872, 15616, 15360, 15104, 14848, 14592, 14336, 14080, 13824, 13568, 13312, 13056, 12800, 12544, 12288, 12032, 11776, 11520, 11264, 11008, 10752, 10496, 10240, 9984, 9728, 9472, 9216, 8960, 8704, 8448, 8192, 7936, 7680, 7424, 7168, 6912, 6656, 6400, 6144, 5888, 5632, 5376, 5120, 4864, 4608, 4352, 4096, 3840, 3584, 3328, 3072, 2816, 2560, 2304, 2048, 1792, 1536, 1280, 1024, 768, 512, 256, 0], k := 116 }

/-- State of the refuting run after 174 website leads. -/
def c4S3 : PsState :=
  { now := 44544, reqTimes := [256, 512, 768, 1024, 1280, 1536, 1792, 2048, 2304, 2560, 2816, 3072, 3328, 3584, 3840, 4096, 4352, 4608, 4864, 5120, 5376, 5632, 5888, 6144, 6400, 6656, 6912, 7168, 7424, 7680, 7936, 8192, 8448, 8704, 8960, 9216, 9472, 9728, 9984, 10240, 10496, 10752, 11008, 11264, 11520, 11776, 12032, 12288, 12544, 12800, 13056, 13312, 13568, 13824, 14080, 14336, 14592, 14848, 15104, 15360, 15616, 15872, 16128, 16384, 16640, 16896, 17152, 17408, 17664, 17920, 18176, 18432, 18688, 18944, 19200, 19456, 19712, 19968, 20224, 20480, 20736, 20992, 21248, 21504, 21760, 22016, 22272, 22528, 22784, 23040, 23296, 23552, 23808, 24064, 24320, 24576, 24832, 25088, 25344, 25600, 25856, 26112, 26368, 26624, 26880, 27136, 27392, 27648, 27904, 28160, 28416, 28672, 28928, 29184, 29440, 29696, 29952, 30208, 30464, 30720, 30976, 31232, 31488, 31744, 32000, 32256, 32512, 32768, 33024, 33280, 33536, 33792, 34048, 34304, 34560, 34816, 35072, 35328, 35584, 35840, 36096, 36352, 36608, 36864, 37120, 37376, 37632, 37888, 38144, 38400, 38656, 38912, 39168, 39424, 39680, 39936, 40192, 40448, 40704, 40960, 41216, 41472, 41728, 41984, 42240, 42496, 42752, 43008, 43264, 43520, 43776, 44032, 44288, 44544],
    log := [44288, 44032, 43776, 43520, 43264, 43008, 42752, 42496, 42240, 41984, 41728, 41472, 41216, 40960, 40704, 40448, 40192, 39936, 39680, 39424, 39168, 38912, 38656, 38400, 38144, 37888, 37632, 37376, 37120, 36864, 36608, 36352, 36096, 35840, 35584, 35328, 35072, 34816, 34560, 34304, 34048, 33792, 33536, 33280, 33024, 32768, 32512, 32256, 32000, 31744, 31488, 31232, 30976, 30720, 30464, 30208, 29952, 29696, 29440, 29184, 28928, 28672, 28416, 28160, 27904, 27648, 27392, 27136, 26880, 26624, 26368, 26112, 25856, 25600, 25344, 25088, 24832, 24576, 24320, 24064, 23808, 23552, 23296, 23040, 22784, 22528, 22272, 22016, 21760, 21504, 21248, 20992, 20736, 20480, 20224, 19968, 19712, 19456, 19200, 18944, 18688, 18432, 18176, 17920, 17664, 17408, 17152, 16896, 16640, 16384, 16128, 15872, 15616, 15360, 15104, 14848, 14592, 14336, 14080, 13824, 13568, 13312, 13056, 12800, 12544, 12288, 12032, 11776, 11520, 11264, 11008, 10752, 10496, 10240, 9984, 9728, 9472, 9216, 8960, 8704, 8448, 8192, 7936, 7680, 7424, 7168, 6912, 6656, 6400, 6144, 5888, 5632, 5376, 5120, 4864, 4608, 4352, 4096, 3840, 3584, 3328, 3072, 2816, 2560, 2304, 2048, 1792, 1536, 1280, 1024, 768, 512, 256, 0], k := 174 }

/-- State of the refuting run after 232 website leads. -/
def c4S4 : PsState :=
  { now := 59392, reqTimes := [256, 512, 768, 1024, 1280, 1536, 1792, 2048, 2304, 2560, 2816, 3072, 3328, 3584, 3840, 4096, 4352, 4608, 4864, 5120, 5376, 5632, 5888, 6144, 6400, 6656, 6912, 7168, 7424, 7680, 7936, 8192, 8448, 8704, 8960, 9216, 9472, 9728, 9984, 10240, 10496, 10752, 11008, 11264, 11520, 11776, 12032, 12288, 12544, 12800, 13056, 13312, 13568, 13824, 14080, 14336, 14592, 14848, 15104, 15360, 15616, 15872, 16128, 16384, 16640, 16896, 17152, 17408, 17664, 17920, 18176, 18432, 18688, 18944, 19200, 19456, 19712, 19968, 20224, 20480, 20736, 20992, 21248, 21504, 21760, 22016, 22272, 22528, 22784, 23040, 23296, 23552, 23808, 24064, 24320, 24576, 24832, 25088, 25344, 25600, 25856, 26112, 26368, 26624, 26880, 27136, 27392, 27648, 27904, 28160, 28416, 28672, 28928, 29184, 29440, 29696, 29952, 30208, 30464, 30720, 30976, 31232, 31488, 31744, 32000, 32256, 32512, 32768, 33024, 33280, 33536, 33792, 34048, 34304, 34560, 34816, 35072, 35328, 35584, 35840, 36096, 36352, 36608, 36864, 37120, 37376, 37632, 37888, 38144, 38400, 38656, 38912, 39168, 39424, 39680, 39936, 40192, 40448, 40704, 40960, 41216, 41472, 41728, 41984, 42240, 42496, 42752, 43008, 43264, 43520, 43776, 44032, 44288, 44544, 44800, 45056, 45312, 45568, 45824, 46080, 46336, 46592, 46848, 47104, 47360, 47616, 47872, 48128, 48384, 48640, 48896, 49152, 49408, 49664, 49920, 50176, 50432, 50688, 50944, 51200, 51456, 51712, 51968, 52224, 52480, 52736, 52992, 53248, 53504, 53760, 54016, 54272, 54528, 54784, 55040, 55296, 55552, 55808, 56064, 56320, 56576, 56832, 57088, 57344, 57600, 57856, 58112, 58368, 58624, 58880, 59136, 59392],
    log := [59136, 58880, 58624, 58368, 58112, 57856, 57600, 57344, 57088, 56832, 56576, 56320, 56064, 55808, 55552, 55296, 55040, 54784, 54528, 54272, 54016, 53760, 53504, 53248, 52992, 52736, 52480, 52224, 51968, 51712, 51456, 51200, 50944, 50688, 50432, 50176, 49920, 49664, 49408, 49152, 48896, 48640, 48384, 48128, 47872, 47616, 47360, 47104, 46848, 46592, 46336, 46080, 45824, 45568, 45312, 45056, 44800, 44544, 44288, 44032, 43776, 43520, 43264, 43008, 42752, 42496, 42240, 41984, 41728, 41472, 41216, 40960, 40704, 40448, 40192, 39936, 39680, 39424, 39168, 38912, 38656, 38400, 38144, 37888, 37632, 37376, 37120, 36864, 36608, 36352, 36096, 35840, 35584, 35328, 35072, 34816, 34560, 34304, 34048, 33792, 33536, 33280, 33024, 32768, 32512, 32256, 32000, 31744, 31488, 31232, 30976, 30720, 30464, 30208, 29952, 29696, 29440, 29184, 28928, 28672, 28416, 28160, 27904, 27648, 27392, 27136, 26880, 26624, 26368, 26112, 25856, 25600, 25344, 25088, 24832, 24576, 24320, 24064, 23808, 23552, 23296, 23040, 22784, 22528, 22272, 22016, 21760, 21504, 21248, 20992, 20736, 20480, 20224, 19968, 19712, 19456, 19200, 18944, 18688, 18432, 18176, 17920, 17664, 17408, 17152, 16896, 16640, 16384, 16128, 15872, 15616, 15360, 15104, 14848, 14592, 14336, 14080, 13824, 13568, 13312, 13056, 12800, 12544, 12288, 12032, 11776, 11520, 11264, 11008, 10752, 10496, 10240, 9984, 9728, 9472, 9216, 8960, 8704, 8448, 8192, 7936, 7680, 7424, 7168, 6912, 6656, 6400, 6144, 5888, 5632, 5376, 5120, 4864, 4608, 4352, 4096, 3840, 3584, 3328, 3072, 2816, 2560, 2304, 2048, 1792, 1536, 1280, 1024, 768, 512, 256, 0], k := 232 }

/-- State of the refuting run after 290 website leads. -/
def c4S5 : PsState :=
  { now := 74240, reqTimes := [256, 512, 768, 1024, 1280, 1536, 1792, 2048, 2304, 2560, 2816, 3072, 3328, 3584, 3840, 4096, 4352, 4608, 4864, 5120, 5376, 5632, 5888, 6144, 6400, 6656, 6912, 7168, 7424, 7680, 7936, 8192, 8448, 8704, 8960, 9216, 9472, 9728, 9984, 10240, 10496, 10752, 11008, 11264, 11520, 11776, 12032, 12288, 12544, 12800, 13056, 13312, 13568, 13824, 14080, 14336, 14592, 14848, 15104, 15360, 15616, 15872, 16128, 16384, 16640, 16896, 17152, 17408, 17664, 17920, 18176, 18432, 18688, 18944, 19200, 19456, 19712, 19968, 20224, 20480, 20736, 20992, 21248, 21504, 21760, 22016, 22272, 22528, 22784, 23040, 23296, 23552, 23808, 24064, 24320, 24576, 24832, 25088, 25344, 25600, 25856, 26112, 26368, 26624, 26880, 27136, 27392, 27648, 27904, 28160, 28416, 28672, 28928, 29184, 29440, 29696, 29952, 30208, 30464, 30720, 30976, 31232, 31488, 31744, 32000, 32256, 32512, 32768, 33024, 33280, 33536, 33792, 34048, 34304, 34560, 34816, 35072, 35328, 35584, 35840, 36096, 36352, 36608, 36864, 37120, 37376, 37632, 37888, 38144, 38400, 38656, 38912, 39168, 39424, 39680, 39936, 40192, 40448, 40704, 40960, 41216, 41472, 41728, 41984, 42240, 42496, 42752, 43008, 43264, 43520, 43776, 44032, 44288, 44544, 44800, 45056, 45312, 45568, 45824, 46080, 46336, 46592, 46848, 47104, 47360, 47616, 47872, 48128, 48384, 48640, 48896, 49152, 49408, 49664, 49920, 50176, 50432, 50688, 50944, 51200, 51456, 51712, 51968, 52224, 52480, 52736, 52992, 53248, 53504, 53760, 54016, 54272, 54528, 54784, 55040, 55296, 55552, 55808, 56064, 56320, 56576, 56832, 57088, 57344, 57600, 57856, 58112, 58368, 58624, 58880, 59136, 59392, 59648, 59904, 60160, 60416, 60672, 60928, 61184, 61440, 61696, 61952, 62208, 62464, 62720, 62976, 63232, 63488, 63744, 64000, 64256, 64512, 64768, 65024, 65280, 65536, 65792, 66048, 66304, 66560, 66816, 67072, 67328, 67584, 67840, 68096, 68352, 68608, 68864, 69120, 69376, 69632, 69888, 70144, 70400, 70656, 70912, 71168, 71424, 71680, 71936, 72192, 72448, 72704, 72960, 73216, 73472, 73728, 73984, 74240],
    log := [73984, 73728, 73472, 73216, 72960, 72704, 72448, 72192, 71936, 71680, 71424, 71168, 70912, 70656, 70400, 70144, 69888, 69632, 69376, 69120, 68864, 68608, 68352, 68096, 67840, 67584, 67328, 67072, 66816, 66560, 66304, 66048, 65792, 65536, 65280, 65024, 64768, 64512, 64256, 64000, 63744, 63488, 63232, 62976, 62720, 62464, 62208, 61952, 61696, 61440, 61184, 60928, 60672, 60416, 60160, 59904, 59648, 59392, 59136, 58880, 58624, 58368, 58112, 57856, 57600, 57344, 57088, 56832, 56576, 56320, 56064, 55808, 55552, 55296, 55040, 54784, 54528, 54272, 54016, 53760, 53504, 53248, 52992, 52736, 52480, 52224, 51968, 51712, 51456, 51200, 50944, 50688, 50432, 50176, 49920, 49664, 49408, 49152, 48896, 48640, 48384, 48128, 47872, 47616, 47360, 47104, 46848, 46592, 46336, 46080, 45824, 45568, 45312, 45056, 44800, 44544, 44288, 44032, 43776, 43520, 43264, 43008, 42752, 42496, 42240, 41984, 41728, 41472, 41216, 40960, 40704, 40448, 40192, 39936, 39680, 39424, 39168, 38912, 38656, 38400, 38144, 37888, 37632, 37376, 37120, 36864, 36608, 36352, 36096, 35840, 35584, 35328, 35072, 34816, 34560, 34304, 34048, 33792, 33536, 33280, 33024, 32768, 32512, 32256, 32000, 31744, 31488, 31232, 30976, 30720, 30464, 30208, 29952, 29696, 29440, 29184, 28928, 28672, 28416, 28160, 27904, 27648, 27392, 27136, 26880, 26624, 26368, 26112, 25856, 25600, 25344, 25088, 24832, 24576, 24320, 24064, 23808, 23552, 23296, 23040, 22784, 22528, 22272, 22016, 21760, 21504, 21248, 20992, 20736, 20480, 20224, 19968, 19712, 19456, 19200, 18944, 18688, 18432, 18176, 17920, 17664, 17408, 17152, 16896, 16640, 16384, 16128, 15872, 15616, 15360, 15104, 14848, 14592, 14336, 14080, 13824, 13568, 13312, 13056, 12800, 12544, 12288, 12032, 11776, 11520, 11264, 11008, 10752, 10496, 10240, 9984, 9728, 9472, 9216, 8960, 8704, 8448, 8192, 7936, 7680, 7424, 7168, 6912, 6656, 6400, 6144, 5888, 5632, 5376, 5120, 4864, 4608, 4352, 4096, 3840, 3584, 3328, 3072, 2816, 2560, 2304, 2048, 1792, 1536, 1280, 1024, 768, 512, 256, 0], k := 290 }

/-- State of the refuting run after 348 website leads. -/
def c4S6 : PsState :=
  { now := 89088, reqTimes := [256, 512, 768, 1024, 1280, 1536, 1792, 2048, 2304, 2560, 2816, 3072, 3328, 3584, 3840, 4096, 4352, 4608, 4864, 5120, 5376, 5632, 5888, 6144, 6400, 6656, 6912, 7168, 7424, 7680, 7936, 8192, 8448, 8704, 8960, 9216, 9472, 9728, 9984, 10240, 10496, 10752, 11008, 11264, 11520, 11776, 12032, 12288, 12544, 12800, 13056, 13312, 13568, 13824, 14080, 14336, 14592, 14848, 15104, 15360, 15616, 15872, 16128, 16384, 16640, 16896, 17152, 17408, 17664, 17920, 18176, 18432, 18688, 18944, 19200, 19456, 19712, 19968, 20224, 20480, 20736, 20992, 21248, 21504, 21760, 22016, 22272, 22528, 22784, 23040, 23296, 23552, 23808, 24064, 24320, 24576, 24832, 25088, 25344, 25600, 25856, 26112, 26368, 26624, 26880, 27136, 27392, 27648, 27904, 28160, 28416, 28672, 28928, 29184, 29440, 29696, 29952, 30208, 30464, 30720, 30976, 31232, 31488, 31744, 32000, 32256, 32512, 32768, 33024, 33280, 33536, 33792, 34048, 34304, 34560, 34816, 35072, 35328, 35584, 35840, 36096, 36352, 36608, 36864, 37120, 37376, 37632, 37888, 38144, 38400, 38656, 38912, 39168, 39424, 39680, 39936, 40192, 40448, 40704, 40960, 41216, 41472, 41728, 41984, 42240, 42496, 42752, 43008, 43264, 43520, 43776, 44032, 44288, 44544, 44800, 45056, 45312, 45568, 45824, 46080, 46336, 46592, 46848, 47104, 47360, 47616, 47872, 48128, 48384, 48640, 48896, 49152, 49408, 49664, 49920, 50176, 50432, 50688, 50944, 51200, 51456, 51712, 51968, 52224, 52480, 52736, 52992, 53248, 53504, 53760, 54016, 54272, 54528, 54784, 55040, 55296, 55552, 55808, 56064, 56320, 56576, 56832, 57088, 57344, 57600, 57856, 58112, 58368, 58624, 58880, 59136, 59392, 59648, 59904, 60160, 60416, 60672, 60928, 61184, 61440, 61696, 61952, 62208, 62464, 62720, 62976, 63232, 63488, 63744, 64000, 64256, 64512, 64768, 65024, 65280, 65536, 65792, 66048, 66304, 66560, 66816, 67072, 67328, 67584, 67840, 68096, 68352, 68608, 68864, 69120, 69376, 69632, 69888, 70144, 70400, 70656, 70912, 71168, 71424, 71680, 71936, 72192, 72448, 72704, 72960, 73216, 73472, 73728, 73984, 74240, 74496, 74752, 75008, 75264, 75520, 75776, 76032, 76288, 76544, 76800, 77056, 77312, 77568, 77824, 78080, 78336, 78592, 78848, 79104, 79360, 79616, 79872, 80128, 80384, 80640, 80896, 81152, 81408, 81664, 81920, 82176, 82432, 82688, 82944, 83200, 83456, 83712, 83968, 84224, 84480, 84736, 84992, 85248, 85504, 85760, 86016, 86272, 86528, 86784, 87040, 87296, 87552, 87808, 88064, 88320, 88576, 88832, 89088],
    log := [88832, 88576, 88320, 88064, 87808, 87552, 87296, 87040, 86784, 86528, 86272, 86016, 85760, 85504, 85248, 84992, 84736, 84480, 84224, 83968, 83712, 83456, 83200, 82944, 82688, 82432, 82176, 81920, 81664, 81408, 81152, 80896, 80640, 80384, 80128, 79872, 79616, 79360, 79104, 78848, 78592, 78336, 78080, 77824, 77568, 77312, 77056, 76800, 76544, 76288, 76032, 75776, 75520, 75264, 75008, 74752, 74496, 74240, 73984, 73728, 73472, 73216, 72960, 72704, 72448, 72192, 71936, 71680, 71424, 71168, 70912, 70656, 70400, 70144, 69888, 69632, 69376, 69120, 68864, 68608, 68352, 68096, 67840, 67584, 67328, 67072, 66816, 66560, 66304, 66048, 65792, 65536, 65280, 65024, 64768, 64512, 64256, 64000, 63744, 63488, 63232, 62976, 62720, 62464, 62208, 61952, 61696, 61440, 61184, 60928, 60672, 60416, 60160, 59904, 59648, 59392, 59136, 58880, 58624, 58368, 58112, 57856, 57600, 57344, 57088, 56832, 56576, 56320, 56064, 55808, 55552, 55296, 55040, 54784, 54528, 54272, 54016, 53760, 53504, 53248, 52992, 52736, 52480, 52224, 51968, 51712, 51456, 51200, 50944, 50688, 50432, 50176, 49920, 49664, 49408, 49152, 48896, 48640, 48384, 48128, 47872, 47616, 47360, 47104, 46848, 46592, 46336, 46080, 45824, 45568, 45312, 45056, 44800, 44544, 44288, 44032, 43776, 43520, 43264, 43008, 42752, 42496, 42240, 41984, 41728, 41472, 41216, 40960, 40704, 40448, 40192, 39936, 39680, 39424, 39168, 38912, 38656, 38400, 38144, 37888, 37632, 37376, 37120, 36864, 36608, 36352, 36096, 35840, 35584, 35328, 35072, 34816, 34560, 34304, 34048, 33792, 33536, 33280, 33024, 32768, 32512, 32256, 32000, 31744, 31488, 31232, 30976, 30720, 30464, 30208, 29952, 29696, 29440, 29184, 28928, 28672, 28416, 28160, 27904, 27648, 27392, 27136, 26880, 26624, 26368, 26112, 25856, 25600, 25344, 25088, 24832, 24576, 24320, 24064, 23808, 23552, 23296, 23040, 22784, 22528, 22272, 22016, 21760, 21504, 21248, 20992, 20736, 20480, 20224, 19968, 19712, 19456, 19200, 18944, 18688, 18432, 18176, 17920, 17664, 17408, 17152, 16896, 16640, 16384, 16128, 15872, 15616, 15360, 15104, 14848, 14592, 14336, 14080, 13824, 13568, 13312, 13056, 12800, 12544, 12288, 12032, 11776, 11520, 11264, 11008, 10752, 10496, 10240, 9984, 9728, 9472, 9216, 8960, 8704, 8448, 8192, 7936, 7680, 7424, 7168, 6912, 6656, 6400, 6144, 5888, 5632, 5376, 5120, 4864, 4608, 4352, 4096, 3840, 3584, 3328, 3072, 2816, 2560, 2304, 2048, 1792, 1536, 1280, 1024, 768, 512, 256, 0], k := 348 }

/-- State of the refuting run after 406 website leads. -/
def c4S7 : PsState :=
  { now := 101256, reqTimes := [101256, 101256, 101256, 101256, 101256, 101256, 101256, 101256, 101256, 101256, 101256, 101256, 101256, 101256, 101256, 101256],
    log := [101256, 101256, 101256, 101256, 101256, 101256, 101256, 101256, 101256, 101256, 101256, 101256, 101256, 101256, 101256, 101256, 99584, 99328, 99072, 98816, 98560, 98304, 98048, 97792, 97536, 97280, 97024, 96768, 96512, 96256, 96000, 95744, 95488, 95232, 94976, 94720, 94464, 94208, 93952, 93696, 93440, 93184, 92928, 92672, 92416, 92160, 91904, 91648, 91392, 91136, 90880, 90624, 90368, 90112, 89856, 89600, 89344, 89088, 88832, 88576, 88320, 88064, 87808, 87552, 87296, 87040, 86784, 86528, 86272, 86016, 85760, 85504, 85248, 84992, 84736, 84480, 84224, 83968, 83712, 83456, 83200, 82944, 82688, 82432, 82176, 81920, 81664, 81408, 81152, 80896, 80640, 80384, 80128, 79872, 79616, 79360, 79104, 78848, 78592, 78336, 78080, 77824, 77568, 77312, 77056, 76800, 76544, 76288, 76032, 75776, 75520, 75264, 75008, 74752, 74496, 74240, 73984, 73728, 73472, 73216, 72960, 72704, 72448, 72192, 71936, 71680, 71424, 71168, 70912, 70656, 70400, 70144, 69888, 69632, 69376, 69120, 68864, 68608, 68352, 68096, 67840, 67584, 67328, 67072, 66816, 66560, 66304, 66048, 65792, 65536, 65280, 65024, 64768, 64512, 64256, 64000, 63744, 63488, 63232, 62976, 62720, 62464, 62208, 61952, 61696, 61440, 61184, 60928, 60672, 60416, 60160, 59904, 59648, 59392, 59136, 58880, 58624, 58368, 58112, 57856, 57600, 57344, 57088, 56832, 56576, 56320, 56064, 55808, 55552, 55296, 55040, 54784, 54528, 54272, 54016, 53760, 53504, 53248, 52992, 52736, 52480, 52224, 51968, 51712, 51456, 51200, 50944, 50688, 50432, 50176, 49920, 49664, 49408, 49152, 48896, 48640, 48384, 48128, 47872, 47616, 47360, 47104, 46848, 46592, 46336, 46080, 45824, 45568, 45312, 45056, 44800, 44544, 44288, 44032, 43776, 43520, 43264, 43008, 42752, 42496, 42240, 41984, 41728, 41472, 41216, 40960, 40704, 40448, 40192, 39936, 39680, 39424, 39168, 38912, 38656, 38400, 38144, 37888, 37632, 37376, 37120, 36864, 36608, 36352, 36096, 35840, 35584, 35328, 35072, 34816, 34560, 34304, 34048, 33792, 33536, 33280, 33024, 32768, 32512, 32256, 32000, 31744, 31488, 31232, 30976, 30720, 30464, 30208, 29952, 29696, 29440, 29184, 28928, 28672, 28416, 28160, 27904, 27648, 27392, 27136, 26880, 26624, 26368, 26112, 25856, 25600, 25344, 25088, 24832, 24576, 24320, 24064, 23808, 23552, 23296, 23040, 22784, 22528, 22272, 22016, 21760, 21504, 21248, 20992, 20736, 20480, 20224, 19968, 19712, 19456, 19200, 18944, 18688, 18432, 18176, 17920, 17664, 17408, 17152, 16896, 16640, 16384, 16128, 15872, 15616, 15360, 15104, 14848, 14592, 14336, 14080, 13824, 13568, 13312, 13056, 12800, 12544, 12288, 12032, 11776, 11520, 11264, 11008, 10752, 10496, 10240, 9984, 9728, 9472, 9216, 8960, 8704, 8448, 8192, 7936, 7680, 7424, 7168, 6912, 6656, 6400, 6144, 5888, 5632, 5376, 5120, 4864, 4608, 4352, 4096, 3840, 3584, 3328, 3072, 2816, 2560, 2304, 2048, 1792, 1536, 1280, 1024, 768, 512, 256, 0], k := 406 }


/-! ## Reference values for refutations and witnesses -/

/-- Modelled from the source's selection discipline in `get_field_value`
and the `or`-chain of `get_website_url`: the first candidate key whose
raw (untrimmed) value is truthy.  Reference definition used to state
what those two resolvers actually compute. -/
def firstTruthy (lead : Lead) : List String → Option String
  | [] => none
  | k :: rest =>
    match leadFind lead k with
    | some v => if v ≠ "" then some v else firstTruthy lead rest
    | none => firstTruthy lead rest

/-- An HTTP oracle whose every response is a 404 page. -/
def det404 : DetOracle := ⟨fun _ => HttpOutcome.ok 404 "", fun _ => none⟩

/-- Detectors that never match (the page contents are irrelevant to the
refuted claims). -/
def noDetectors : Detectors :=
  ⟨fun _ => none, fun _ => none, fun _ => none, fun _ => false,
   fun _ => false, fun _ => none, fun _ => false, fun _ => false⟩

/-- A record whose first website alias holds only whitespace while a
later alias holds a real domain. -/
def leadWsC9 : Lead := [("companyWebsite", " "), ("website", "example.com")]

/-- A one-field record with a website, used in witnesses. -/
def leadW : Lead := [("website", "a.com")]

/-- A batch oracle for `validate_websites_batch` that times out on
every attempt of every record. -/
def vwOracleW : Nat → Nat → VwOutcome := fun _ _ => VwOutcome.timeout

/-- A batch oracle agreeing with `vwOracleW` on record 0 but not
elsewhere. -/
def vwOracleW2 : Nat → Nat → VwOutcome :=
  fun i _ => if i = 0 then VwOutcome.timeout else VwOutcome.sslError

/-- A batch oracle for `analyze_leads` that serves 404 to every record. -/
def detOracleW : Nat → DetOracle := fun _ => det404

/-- An AnyMailFinder oracle that never finds an email. -/
def apiW : Nat → Option (String × Nat × Bool) := fun _ => none


/-- The candidate keys of the `or`-chain of `get_website_url`
(validate_websites.py), in source order. -/
def vwUrlKeys : List String :=
  ["companyWebsite", "company_website", "website",
   "companyDomain", "company_domain", "domain",
   "Company Website", "Company Domain"]

/-- The post-selection processing of `get_website_url`: strip, upgrade
`http://` to `https://`, and prefix `https://` when no `http` prefix is
present.  Named so the selection discipline of `get_website_url` can be
characterized against `firstTruthy`. -/
def vwNormalizeUrl (w : String) : String :=
  let w := pyStrip w
  let w := if strStartsWith w "http://" then "https://" ++ strDrop w 7 else w
  if w ≠ "" ∧ ¬ strStartsWith w "http" then "https://" ++ w else w

/-! ## Helper theorems -/


/-- Replacing the bindings of `k` makes `k` resolve to the new value
(assuming some binding of `k` exists). -/
theorem find_map_replace (k v : String) :
    ∀ l : Lead, l.any (fun p => p.1 == k) = true →
      List.find? (fun p => p.1 == k) (l.map (fun p => if p.1 == k then (k, v) else p)) =
        some (k, v)
  | [], h => by simp at h
  | p :: rest, h => by
    cases hp : (p.1 == k) with
    | true =>
      have hpe : p.1 = k := by simpa using hp
      simp [List.find?_cons, hpe]
    | false =>
      have h' : rest.any (fun p => p.1 == k) = true := by
        simp only [List.any_cons, Bool.or_eq_true] at h
        simpa [hp] using h
      simp only [List.map_cons, hp, Bool.false_eq_true, if_false, List.find?_cons]
      exact find_map_replace k v rest h'

/-- Appending a binding of `k` to a list without one makes `k` resolve
to the appended value. -/
theorem find_append_single (k v : String) :
    ∀ l : Lead, l.any (fun p => p.1 == k) = false →
      List.find? (fun p => p.1 == k) (l ++ [(k, v)]) = some (k, v)
  | [], _ => by simp [List.find?]
  | p :: rest, h => by
    have h1 : (p.1 == k) = false := by
      simp only [List.any_cons, Bool.or_eq_false_iff] at h
      exact h.1
    have h2 : rest.any (fun p => p.1 == k) = false := by
      simp only [List.any_cons, Bool.or_eq_false_iff] at h
      exact h.2
    simp only [List.cons_append, List.find?_cons, h1]
    exact find_append_single k v rest h2

/-- Looking up a key right after setting it yields the new value. -/
theorem leadFind_set_self (l : Lead) (k v : String) :
    leadFind (leadSet l k v) k = some v := by
  unfold leadSet leadFind
  by_cases h : l.any (fun p => p.1 == k) = true
  · rw [if_pos h, find_map_replace k v l h]
    rfl
  · rw [if_neg h, find_append_single k v l (Bool.of_not_eq_true h)]
    rfl

/-- `leadGetD` after `leadSet` of the same key. -/
theorem leadGetD_set_self (l : Lead) (k v : String) :
    leadGetD (leadSet l k v) k = v := by
  simp [leadGetD, leadFind_set_self]

/-- The index order used by the aggregator is total. -/
instance idxLeTotal {α : Type} : IsTotal (Nat × α) (fun a b => a.1 ≤ b.1) :=
  ⟨fun a b => Nat.le_total a.1 b.1⟩

/-- The index order used by the aggregator is transitive. -/
instance idxLeTrans {α : Type} : IsTrans (Nat × α) (fun a b => a.1 ≤ b.1) :=
  ⟨fun _ _ _ => Nat.le_trans⟩

/-- The strict index order is (vacuously) antisymmetric. -/
instance idxLtAntisymm {α : Type} : IsAntisymm (Nat × α) (fun a b => a.1 < b.1) :=
  ⟨fun _ _ h h2 => absurd (Nat.lt_trans h h2) (Nat.lt_irrefl _)⟩

/-- Sorting any permutation of a list whose indices are strictly
increasing restores that list: the aggregator output does not depend on
completion order. -/
theorem sortByIdx_eq_of_sorted {α : Type} (l c : List (Nat × α)) (hperm : l.Perm c)
    (hc : c.Pairwise (fun a b => a.1 < b.1)) : sortByIdx l = c := by
  have hs : (sortByIdx l).Pairwise (fun a b : Nat × α => a.1 ≤ b.1) :=
    List.sorted_insertionSort _ l
  have hp : (sortByIdx l).Perm c := (List.perm_insertionSort _ l).trans hperm
  have hnd : c.Pairwise (fun a b : Nat × α => a.1 ≠ b.1) :=
    hc.imp (fun h => Nat.ne_of_lt h)
  have hsym : ∀ {x y : Nat × α}, x.1 ≠ y.1 → y.1 ≠ x.1 := fun h => Ne.symm h
  have hndl : (sortByIdx l).Pairwise (fun a b : Nat × α => a.1 ≠ b.1) :=
    (List.Perm.pairwise_iff hsym hp).mpr hnd
  have hlt : (sortByIdx l).Pairwise (fun a b : Nat × α => a.1 < b.1) :=
    (hs.and hndl).imp (fun h => lt_of_le_of_ne h.1 h.2)
  exact List.eq_of_perm_of_sorted hp hlt hc

/-- An enumeration transformed by an index-preserving function has
strictly increasing indices. -/
theorem enum_map_pairwise {α β : Type} (l : List α) (f : Nat → α → β) :
    (l.enum.map (fun p => (p.1, f p.1 p.2))).Pairwise (fun a b : Nat × β => a.1 < b.1) := by
  rw [List.pairwise_map]
  have h1 : List.Pairwise (fun a b : Nat => a < b) (l.enum.map Prod.fst) := by
    rw [List.enum_map_fst]
    exact List.pairwise_lt_range l.length
  rw [List.pairwise_map] at h1
  exact h1

/-- Sorting an index-preserving transformation of an enumeration is the
identity. -/
theorem sortByIdx_enum_map {α β : Type} (l : List α) (f : Nat → α → β) :
    sortByIdx (l.enum.map (fun p => (p.1, f p.1 p.2))) =
      l.enum.map (fun p => (p.1, f p.1 p.2)) :=
  sortByIdx_eq_of_sorted _ _ (List.Perm.refl _) (enum_map_pairwise l f)

/-- The per-record completions of `validate_websites_batch` are an
index-preserving transformation of the enumeration. -/
theorem vwComps_eq (o : Nat → Nat → VwOutcome) (mr : Nat) (leads : List Lead) :
    vwComps o mr leads = leads.enum.map (fun p => (p.1, vwExpected o mr p.1 p.2)) := rfl

/-- Closed form of `validate_websites_batch`: the sort is the identity
on the (already index-ordered) completion pairs. -/
theorem validate_websites_batch_eq (o : Nat → Nat → VwOutcome) (mr : Nat) (leads : List Lead) :
    validate_websites_batch o mr leads = leads.enum.map (fun p => vwExpected o mr p.1 p.2) := by
  unfold validate_websites_batch
  rw [vwComps_eq, sortByIdx_enum_map, List.map_map]
  rfl

/-- `validate_websites_batch` preserves the record count. -/
theorem vw_batch_length (o : Nat → Nat → VwOutcome) (mr : Nat) (leads : List Lead) :
    (validate_websites_batch o mr leads).length = leads.length := by
  rw [validate_websites_batch_eq, List.length_map, List.enum_length]

/-- Pointwise description of `validate_websites_batch`. -/
theorem vw_batch_getElem (o : Nat → Nat → VwOutcome) (mr : Nat) (leads : List Lead) (i : Nat) :
    (validate_websites_batch o mr leads)[i]? = leads[i]?.map (fun x => vwExpected o mr i x) := by
  rw [validate_websites_batch_eq, List.getElem?_map, List.getElem?_enum]
  cases leads[i]? <;> rfl

/-- Closed form of the eligible completion pairs. -/
theorem eligPairs_eq (o : Nat → DetOracle) (det : Detectors) (leads : List Lead) :
    CheckGtm.eligPairs o det leads
      = (leads.enum.filter (fun p => (get_website_from_lead p.2).isSome)).map
          (fun p => (p.1, CheckGtm.gtmExpect o det p.1 p.2)) := by
  unfold CheckGtm.eligPairs
  generalize leads.enum = ps
  induction ps with
  | nil => rfl
  | cons p rest ih =>
    cases h : get_website_from_lead p.2 with
    | some w =>
      simp [List.filterMap_cons, List.filter_cons, h, CheckGtm.gtmExpect, ih]
    | none =>
      simp [List.filterMap_cons, List.filter_cons, h, ih]

/-- Closed form of the no-website pairs. -/
theorem ineligPairs_eq (leads : List Lead) (o : Nat → DetOracle) (det : Detectors) :
    CheckGtm.ineligPairs leads
      = (leads.enum.filter (fun p => !(get_website_from_lead p.2).isSome)).map
          (fun p => (p.1, CheckGtm.gtmExpect o det p.1 p.2)) := by
  unfold CheckGtm.ineligPairs
  generalize leads.enum = ps
  induction ps with
  | nil => rfl
  | cons p rest ih =>
    cases h : get_website_from_lead p.2 with
    | some w =>
      simp [List.filterMap_cons, List.filter_cons, h, ih]
    | none =>
      simp [List.filterMap_cons, List.filter_cons, h, CheckGtm.gtmExpect, ih]

/-- The concatenated completion pairs are a permutation of the
index-ordered expected pairs. -/
theorem gtm_pairs_perm (o : Nat → DetOracle) (det : Detectors) (leads : List Lead) :
    (CheckGtm.eligPairs o det leads ++ CheckGtm.ineligPairs leads).Perm
      (leads.enum.map (fun p => (p.1, CheckGtm.gtmExpect o det p.1 p.2))) := by
  rw [eligPairs_eq o det leads, ineligPairs_eq leads o det, ← List.map_append]
  exact (List.filter_append_perm _ _).map _

/-- Closed form of `check_gtm_adwords.analyze_leads`. -/
theorem gtm_analyze_eq (o : Nat → DetOracle) (det : Detectors) (leads : List Lead) :
    CheckGtm.analyze_leads o det leads
      = leads.enum.map (fun p => CheckGtm.gtmExpect o det p.1 p.2) := by
  unfold CheckGtm.analyze_leads
  by_cases h : (CheckGtm.url_lead_pairs leads).isEmpty = true
  · rw [if_pos h]
    have hall : ∀ p ∈ leads.enum, get_website_from_lead p.2 = none := by
      intro p hp
      have h0 : CheckGtm.url_lead_pairs leads = [] := by
        cases hul : CheckGtm.url_lead_pairs leads with
        | nil => rfl
        | cons a l => rw [hul] at h; simp [List.isEmpty] at h
      unfold CheckGtm.url_lead_pairs at h0
      rw [List.filterMap_eq_nil_iff] at h0
      have := h0 p hp
      exact Option.map_eq_none'.mp this
    calc leads.map CheckGtm.gtmAnnotNW
        = (leads.enum.map Prod.snd).map CheckGtm.gtmAnnotNW := by
          rw [List.enum_map_snd]
      _ = leads.enum.map (fun p => CheckGtm.gtmAnnotNW p.2) := by
          rw [List.map_map]; rfl
      _ = leads.enum.map (fun p => CheckGtm.gtmExpect o det p.1 p.2) := by
          apply List.map_congr_left
          intro p hp
          unfold CheckGtm.gtmExpect
          rw [hall p hp]
  · rw [if_neg h]
    rw [sortByIdx_eq_of_sorted _ _ (gtm_pairs_perm o det leads)
      (enum_map_pairwise leads (fun i x => CheckGtm.gtmExpect o det i x))]
    rw [List.map_map]
    rfl

/-- `analyze_leads` preserves the record count. -/
theorem gtm_analyze_length (o : Nat → DetOracle) (det : Detectors) (leads : List Lead) :
    (CheckGtm.analyze_leads o det leads).length = leads.length := by
  rw [gtm_analyze_eq, List.length_map, List.enum_length]

/-- Pointwise description of `analyze_leads`. -/
theorem gtm_analyze_getElem (o : Nat → DetOracle) (det : Detectors) (leads : List Lead) (i : Nat) :
    (CheckGtm.analyze_leads o det leads)[i]? = leads[i]?.map (fun x => CheckGtm.gtmExpect o det i x) := by
  rw [gtm_analyze_eq, List.getElem?_map, List.getElem?_enum]
  cases leads[i]? <;> rfl


/-- Every run of the retry recursion ends in one of the terminal
statuses, for every oracle (exceptions included). -/
theorem vwGo_status_mem (o : Nat → VwOutcome) (remaining : Nat) :
    ∀ rc, (vwGo o rc remaining).1 ∈ vwStatuses := by
  induction remaining with
  | zero =>
    intro rc
    unfold vwGo
    cases h : o rc <;> simp only [h]
    case ok code cf cfr =>
      split
      · simp [vwStatuses]
      · split
        · split <;> simp [vwStatuses]
        · simp [vwStatuses]
    case sslError => simp [vwStatuses]
    case timeout => simp [vwStatuses]
    case reqExc cf cfr =>
      split
      · simp [vwStatuses]
      · split <;> simp [vwStatuses]
    case otherExc => simp [vwStatuses]
  | succ r ih =>
    intro rc
    unfold vwGo
    cases h : o rc <;> simp only [h]
    case ok code cf cfr =>
      split
      · simp [vwStatuses]
      · split
        · split
          · exact ih (rc + 1)
          · simp [vwStatuses]
        · simp [vwStatuses]
    case sslError => simp [vwStatuses]
    case timeout => exact ih (rc + 1)
    case reqExc cf cfr =>
      split
      · exact ih (rc + 1)
      · split
        · exact ih (rc + 1)
        · exact ih (rc + 1)
    case otherExc => exact ih (rc + 1)

/-- An oracle that times out on every attempt exhausts the whole retry
budget: one initial attempt plus `remaining` retries. -/
theorem vwGo_timeout_const (remaining : Nat) :
    ∀ rc, vwGo (fun _ => VwOutcome.timeout) rc remaining = ("timeout", remaining + 1) := by
  induction remaining with
  | zero => intro rc; rfl
  | succ r ih =>
    intro rc
    unfold vwGo
    simp [ih (rc + 1)]

/-- A Cloudflare-flagged 403 response on every attempt is retried until
the budget is exhausted and ends `blocked` (not `invalid`). -/
theorem vwGo_cf403_const (remaining : Nat) :
    ∀ rc, vwGo (fun _ => VwOutcome.ok 403 true false) rc remaining =
      ("blocked", remaining + 1) := by
  induction remaining with
  | zero => intro rc; rfl
  | succ r ih =>
    intro rc
    unfold vwGo
    simp [ih (rc + 1)]

/-- A non-2xx response not identified as Cloudflare/CloudFront is an
immediate `invalid` after exactly one attempt. -/
theorem vwGo_invalid (o : Nat → VwOutcome) (remaining code : Nat) (rc : Nat)
    (h : o rc = VwOutcome.ok code false false) (hc : ¬ (200 ≤ code ∧ code < 300)) :
    vwGo o rc remaining = ("invalid", 1) := by
  cases remaining with
  | zero =>
    unfold vwGo
    simp [h, hc]
  | succ r =>
    unfold vwGo
    simp [h, hc]

/-- The detection body satisfies the result invariant for every set of
detectors and every page. -/
theorem analyzeHtml_inv (det : Detectors) (html : String) :
    detResultInvariant (analyzeHtml det html) = true := by
  unfold analyzeHtml
  cases h1 : det.gtmPat1 (pyLower html) <;>
  cases h2 : det.gtmPat2 (pyLower html) <;>
  cases h3 : det.adsConfig (pyLower html) <;>
  cases h4 : det.legacyConv (pyLower html) <;>
  cases h5 : det.gtagJsAw (pyLower html) <;>
  cases h6 : det.gtagJsId (pyLower html) <;>
  cases h7 : det.conversionAny (pyLower html) <;>
  cases h8 : det.remarketingAny (pyLower html) <;>
  simp [detResultInvariant, failedResult, h1, h2, h3, h4, h5, h6, h7, h8]

/-- Every result of the retry loop of `detect_gtm_and_ads` satisfies
the result invariant. -/
theorem detGo_inv (o : DetOracle) (det : Detectors) (fuel : Nat) :
    ∀ attempt made, detResultInvariant (detGo o det attempt made fuel).1 = true := by
  induction fuel with
  | zero => intro attempt made; rfl
  | succ f ih =>
    intro attempt made
    unfold detGo
    cases h : o.fetch attempt <;> simp only [h]
    case ok code html =>
      split
      · exact ih (attempt + 1) (made + 1)
      · exact analyzeHtml_inv det html
    case sslError =>
      cases hf : o.fallback attempt with
      | some p =>
        dsimp only
        split
        · rfl
        · exact ih (attempt + 1) (made + 2)
      | none => exact ih (attempt + 1) (made + 2)
    case timeout => exact ih (attempt + 1) (made + 1)
    case connError => rfl
    case exc => rfl

/-- The status of a detection result is `analyzed` or `failed`. -/
theorem detect_status_mem (o : DetOracle) (det : Detectors) :
    (detect_gtm_and_ads o det).1.status = "analyzed" ∨
    (detect_gtm_and_ads o det).1.status = "failed" := by
  have h := detGo_inv o det 2 0 0
  unfold detResultInvariant at h
  simp only [Bool.and_eq_true, Bool.or_eq_true, beq_iff_eq] at h
  exact h.1.1

/-- A non-200 response on every attempt of `detect_gtm_and_ads` is
retried (`continue`): both attempts are spent and the result is the
failed default. -/
theorem detGo_non200 (o : DetOracle) (det : Detectors) (code : Nat) (html : String)
    (hfetch : ∀ a, o.fetch a = HttpOutcome.ok code html) (h200 : code ≠ 200) :
    detect_gtm_and_ads o det = (failedResult, 2) := by
  unfold detect_gtm_and_ads
  simp [detGo, hfetch 0, hfetch 1, h200]

/-- A PageSpeed request that times out on every attempt exhausts the
whole budget and fails. -/
theorem psGo_timeout_const (fuel : Nat) :
    ∀ attempt made, psGo (fun _ => PsOutcome.timeout) attempt made fuel =
      ((none, none, "failed"), made + fuel) := by
  induction fuel with
  | zero => intro attempt made; rfl
  | succ f ih =>
    intro attempt made
    unfold psGo
    rw [ih (attempt + 1) (made + 1)]
    simp only [Prod.mk.injEq, true_and]
    omega

/-- A PageSpeed request that is rate-limited (429) on every attempt
exhausts the whole budget and fails. -/
theorem psGo_429_const (fuel : Nat) :
    ∀ attempt made, psGo (fun _ => PsOutcome.ok 429 none none) attempt made fuel =
      ((none, none, "failed"), made + fuel) := by
  induction fuel with
  | zero => intro attempt made; rfl
  | succ f ih =>
    intro attempt made
    unfold psGo
    dsimp only
    rw [if_pos rfl, ih (attempt + 1) (made + 1)]
    simp only [Prod.mk.injEq, true_and]
    omega

/-- The loop of `find_emails.enrich_leads` emits exactly one output
record per processed record. -/
theorem feGo_length (api : Nat → Option (String × Nat × Bool)) (skip : Bool) :
    ∀ (ls : List Lead) (i : Nat) (st : FindEmails.FeStats),
      (FindEmails.feGo api skip i st ls).1.length = ls.length := by
  intro ls
  induction ls with
  | nil => intro i st; rfl
  | cons lead rest ih =>
    intro i st
    unfold FindEmails.feGo
    dsimp only
    split
    · simp [ih]
    · split
      · simp [ih]
      · cases api i <;> simp [ih]

/-- `get_website_from_lead` resolves the website lead of the run. -/
theorem gwfl_lwC4 : get_website_from_lead lwC4 = some "https://a" := rfl

/-- `get_website_from_lead` rejects the website-less lead of the run. -/
theorem gwfl_lnC4 : get_website_from_lead lnC4 = none := rfl

/-- `c4Chunk` is additive. -/
theorem c4Chunk_add (m n : Nat) : c4Chunk (m + n) = c4Chunk m ++ c4Chunk n := by
  unfold c4Chunk
  rw [List.replicate_add, List.flatten_append]

/-- Processing one (website, website-less) pair is one rate-limited
step with no trailing `SAFE_DELAY`. -/
theorem psRun_pair_step (dur : Nat → Nat) (t : PsState) (tail : List Lead) :
    psRun dur t (lwC4 :: lnC4 :: tail) = psRun dur (psLeadStep dur t false) tail := by
  simp only [psRun, gwfl_lwC4, gwfl_lnC4, List.head?_cons, Option.isSome_none]

/-- Running the simulation over a prefix of pairs composes. -/
theorem psRun_c4Chunk_append (dur : Nat → Nat) (m : Nat) (s : PsState) (rest : List Lead) :
    psRun dur s (c4Chunk m ++ rest) = psRun dur (psRun dur s (c4Chunk m)) rest := by
  induction m generalizing s with
  | zero => simp [c4Chunk, psRun]
  | succ m ih =>
    have hm : c4Chunk (m + 1) = lwC4 :: lnC4 :: c4Chunk m := by
      unfold c4Chunk
      rw [List.replicate_succ, List.flatten_cons]
      rfl
    rw [hm, List.cons_append, List.cons_append, psRun_pair_step, psRun_pair_step, ih]

set_option maxRecDepth 60000 in
/-- Chunk 1 of the refuting run. -/
theorem c4_chunk1 : psRun durC4 c4S0 (c4Chunk 58) = c4S1 := by decide

set_option maxRecDepth 60000 in
/-- Chunk 2 of the refuting run. -/
theorem c4_chunk2 : psRun durC4 c4S1 (c4Chunk 58) = c4S2 := by decide

set_option maxRecDepth 60000 in
/-- Chunk 3 of the refuting run. -/
theorem c4_chunk3 : psRun durC4 c4S2 (c4Chunk 58) = c4S3 := by decide

set_option maxRecDepth 60000 in
/-- Chunk 4 of the refuting run. -/
theorem c4_chunk4 : psRun durC4 c4S3 (c4Chunk 58) = c4S4 := by decide

set_option maxRecDepth 60000 in
/-- Chunk 5 of the refuting run. -/
theorem c4_chunk5 : psRun durC4 c4S4 (c4Chunk 58) = c4S5 := by decide

set_option maxRecDepth 60000 in
/-- Chunk 6 of the refuting run. -/
theorem c4_chunk6 : psRun durC4 c4S5 (c4Chunk 58) = c4S6 := by decide

set_option maxRecDepth 60000 in
/-- Chunk 7 of the refuting run. -/
theorem c4_chunk7 : psRun durC4 c4S6 (c4Chunk 58) = c4S7 := by decide

/-- The complete refuting run reaches the final state. -/
theorem c4_run_eq : psRun durC4 psInit leadsC4 = c4S7 := by
  have h0 : psInit = c4S0 := rfl
  have h406 : (406 : Nat) = 58 + (58 + (58 + (58 + (58 + (58 + 58))))) := rfl
  rw [leadsC4, h0, h406]
  rw [c4Chunk_add, psRun_c4Chunk_append, c4_chunk1]
  rw [c4Chunk_add, psRun_c4Chunk_append, c4_chunk2]
  rw [c4Chunk_add, psRun_c4Chunk_append, c4_chunk3]
  rw [c4Chunk_add, psRun_c4Chunk_append, c4_chunk4]
  rw [c4Chunk_add, psRun_c4Chunk_append, c4_chunk5]
  rw [c4Chunk_add, psRun_c4Chunk_append, c4_chunk6]
  exact c4_chunk7

/-- One rate-limited step always leaves the (pruned) request window
with at most `MAX_REQUESTS_PER_100_SEC - 10` entries: the length check
runs *before* the dispatch, and on trigger the window is cleared. -/
theorem psLeadStep_reqTimes_le (dur : Nat → Nat) (s : PsState) (b : Bool) :
    (psLeadStep dur s b).reqTimes.length ≤ MAX_REQUESTS_PER_100_SEC - 10 := by
  unfold psLeadStep MAX_REQUESTS_PER_100_SEC
  cases htr : decide (400 - 10 ≤ (s.reqTimes.filter (fun t => s.now - t < 100000)).length) with
  | true => simp [htr]
  | false =>
    have hlt := of_decide_eq_false htr
    simp only [htr, if_neg, Bool.false_eq_true, if_false, List.length_append,
      List.length_cons, List.length_nil]
    omega


/-- The statuses of `validate_website` are non-empty strings. -/
theorem vwStatuses_ne_empty : ∀ s ∈ vwStatuses, s ≠ "" := by decide

/-- `validate_website` always lands in a terminal status. -/
theorem validate_website_status_mem (o : Nat → VwOutcome) (url : String) (mr : Nat) :
    (validate_website o url mr).1 ∈ vwStatuses := by
  unfold validate_website
  split
  · simp [vwStatuses]
  · exact vwGo_status_mem o mr 0

/-- The status field placed on a record by `analyze_leads` is one of the
three terminal statuses. -/
theorem gtm_status_mem (o : Nat → DetOracle) (det : Detectors) (i : Nat) (lead : Lead) :
    leadGetD (CheckGtm.gtmExpect o det i lead) "tracking_analysis_status" ∈
      (["analyzed", "failed", "no_website"] : List String) := by
  unfold CheckGtm.gtmExpect
  cases h : get_website_from_lead lead with
  | some w =>
    unfold CheckGtm.gtmAnnot
    rw [leadGetD_set_self]
    rcases detect_status_mem (o i) det with h2 | h2 <;> simp [h2]
  | none =>
    unfold CheckGtm.gtmAnnotNW
    rw [leadGetD_set_self]
    simp

/-- A non-429, non-200 PageSpeed response fails immediately after a
single request. -/
theorem psGo_non200 (oP : Nat → PsOutcome) (fuel code : Nat) (perf seo : Option Nat)
    (attempt made : Nat) (h : oP attempt = PsOutcome.ok code perf seo)
    (h429 : code ≠ 429) (h200 : code ≠ 200) :
    psGo oP attempt made (fuel + 1) = ((none, none, "failed"), made + 1) := by
  unfold psGo
  simp [h, h429, h200]

/-- The candidate-key loop of `get_website_from_lead` computes exactly
the specified resolver (first candidate non-empty after trimming),
followed by URL normalization. -/
theorem gwfl_go_eq_spec (lead : Lead) (keys : List String) :
    get_website_from_lead_go lead keys =
      (resolveSpecFirst lead keys).map normalizeWebsite := by
  induction keys with
  | nil => rfl
  | cons k rest ih =>
    unfold get_website_from_lead_go resolveSpecFirst
    cases h : leadFind lead k with
    | none =>
      have hg : leadGetD lead k = "" := by simp [leadGetD, h]
      rw [hg]
      have hs : pyStrip "" = "" := rfl
      rw [hs]
      simp [ih]
    | some v =>
      have hg : leadGetD lead k = v := by simp [leadGetD, h]
      rw [hg]
      by_cases hv : v = ""
      · subst hv
        have hs : pyStrip "" = "" := rfl
        rw [hs]
        simp [ih]
      · by_cases ht : pyStrip v = ""
        · simp [hv, ht, ih]
        · simp [hv, ht]

/-- `get_field_value` computes the trimmed value of the first candidate
with a truthy raw value (not the first candidate that trims non-empty). -/
theorem gfv_eq_truthy (lead : Lead) (keys : List String) :
    get_field_value lead keys = ((firstTruthy lead keys).map pyStrip).getD "" := by
  induction keys with
  | nil => rfl
  | cons k rest ih =>
    unfold get_field_value firstTruthy
    cases h : leadFind lead k with
    | none => simp [ih]
    | some v =>
      by_cases hv : v = ""
      · subst hv; simp [ih]
      · simp [hv]

/-- A plain `RequestException` (e.g. a connection reset) on every
attempt is retried until the budget is exhausted and ends `unknown`. -/
theorem vwGo_reqExc_const (remaining : Nat) :
    ∀ rc, vwGo (fun _ => VwOutcome.reqExc false false) rc remaining =
      ("unknown", remaining + 1) := by
  induction remaining with
  | zero => intro rc; rfl
  | succ r ih =>
    intro rc
    unfold vwGo
    simp [ih (rc + 1)]

/-- A Cloudflare-flagged 429 response on every attempt is retried until
the budget is exhausted and ends `blocked`. -/
theorem vwGo_cf429_const (remaining : Nat) :
    ∀ rc, vwGo (fun _ => VwOutcome.ok 429 true false) rc remaining =
      ("blocked", remaining + 1) := by
  induction remaining with
  | zero => intro rc; rfl
  | succ r ih =>
    intro rc
    unfold vwGo
    simp [ih (rc + 1)]

/-- `x or ''` is `x` for strings under Python truthiness. -/
theorem pyOrS_empty_right (a : String) : pyOrS a "" = a := by
  unfold pyOrS
  split
  · rfl
  · next h => exact (not_ne_iff.mp h).symm

/-- One step of the `or`-chain equals one step of the truthy-first
reference resolver. -/
theorem firstTruthy_cons_getD (lead : Lead) (k : String) (rest : List String) :
    (firstTruthy lead (k :: rest)).getD "" =
      pyOrS (leadGetD lead k) ((firstTruthy lead rest).getD "") := by
  cases h : leadFind lead k with
  | none => simp [firstTruthy, h, pyOrS, leadGetD]
  | some v =>
    by_cases hv : v = ""
    · subst hv; simp [firstTruthy, h, pyOrS, leadGetD]
    · simp [firstTruthy, h, hv, pyOrS, leadGetD]

/-- The empty key list resolves to the empty string. -/
theorem firstTruthy_nil_getD (lead : Lead) : (firstTruthy lead []).getD "" = "" := rfl

/-- `get_website_url` selects the first candidate whose *untrimmed*
value is truthy and only then strips and normalizes it. -/
theorem get_website_url_eq_truthy (lead : Lead) :
    get_website_url lead = vwNormalizeUrl ((firstTruthy lead vwUrlKeys).getD "") := by
  unfold get_website_url vwNormalizeUrl vwUrlKeys
  simp only [firstTruthy_cons_getD, firstTruthy_nil_getD, pyOrS_empty_right]

/-! ## Claims -/

/-- C10: every result of `detect_gtm_and_ads` has status `analyzed` or
`failed`, carries a GTM container id only when `gtm_installed`, and
carries a Google Ads account id only when `google_ads_detected`. -/
theorem c10_detect_result_invariant (o : DetOracle) (det : Detectors) :
    detResultInvariant (detect_gtm_and_ads o det).1 = true :=
  detGo_inv o det 2 0 0

/-- C8: `validate_website` resolves to a terminal status for every
oracle (every exception path included) and never propagates an
exception; and the batch result at a record depends only on that
record's own oracle, so a failure in one work item cannot affect
another's result. -/
theorem c8_executor_isolation :
    (∀ (o : Nat → VwOutcome) (url : String) (mr : Nat),
      (validate_website o url mr).1 ∈ vwStatuses) ∧
    (∀ (o o' : Nat → Nat → VwOutcome) (mr : Nat) (leads : List Lead) (i : Nat),
      o i = o' i →
      (validate_websites_batch o mr leads)[i]? = (validate_websites_batch o' mr leads)[i]?) := by
  constructor
  · exact validate_website_status_mem
  · intro o o' mr leads i h
    rw [vw_batch_getElem, vw_batch_getElem]
    unfold vwExpected
    rw [h]

/-- Witness for C8 at a concrete record and two oracles that agree on
record 0 but differ elsewhere. -/
theorem c8_executor_isolation_witness :
    (validate_website (fun _ => VwOutcome.timeout) "https://a.com" 3).1 ∈ vwStatuses ∧
    (validate_websites_batch vwOracleW 3 [leadW])[0]? =
      (validate_websites_batch vwOracleW2 3 [leadW])[0]? :=
  ⟨c8_executor_isolation.1 (fun _ => VwOutcome.timeout) "https://a.com" 3,
   c8_executor_isolation.2 vwOracleW vwOracleW2 3 [leadW] 0 rfl⟩

/-- C2: the i-th output record of `validate_websites_batch` and of
`check_gtm_adwords.analyze_leads` is the i-th input record carrying its
own annotation, for every index — the sorted reassembly restores input
order independently of completion order. -/
theorem c2_order_preservation (oV : Nat → Nat → VwOutcome) (mrV : Nat)
    (oG : Nat → DetOracle) (det : Detectors) (leads : List Lead) (i : Nat)
    (hi : i < leads.length) :
    (validate_websites_batch oV mrV leads)[i]? =
      some (vwExpected oV mrV i (leads.getD i [])) ∧
    (CheckGtm.analyze_leads oG det leads)[i]? =
      some (CheckGtm.gtmExpect oG det i (leads.getD i [])) := by
  have hx : leads[i]? = some (leads.getD i []) := by
    rw [List.getD_eq_getElem leads [] hi, List.getElem?_eq_getElem hi]
  constructor
  · rw [vw_batch_getElem, hx]
    rfl
  · rw [gtm_analyze_getElem, hx]
    rfl

/-- Witness for C2 on a one-record collection. -/
theorem c2_order_preservation_witness :
    (0 < ([leadW] : List Lead).length) ∧
    ((validate_websites_batch vwOracleW 3 [leadW])[0]? =
        some (vwExpected vwOracleW 3 0 (([leadW] : List Lead).getD 0 [])) ∧
     (CheckGtm.analyze_leads detOracleW noDetectors [leadW])[0]? =
        some (CheckGtm.gtmExpect detOracleW noDetectors 0 (([leadW] : List Lead).getD 0 []))) :=
  ⟨by decide, c2_order_preservation vwOracleW 3 detOracleW noDetectors [leadW] 0 (by decide)⟩

/-- C1 counterexample: with a max-leads limit of 1 on a two-record
collection, `find_emails.enrich_leads` returns one record — the second
input record is dropped, so `len(output) == len(input)` fails. -/
theorem c1_counterexample :
    (FindEmails.enrich_leads apiW [leadW, leadW] 1 true).1.length = 1 ∧
    (FindEmails.enrich_leads apiW [leadW, leadW] 1 true).1.length ≠
      ([leadW, leadW] : List Lead).length := by decide

/-- C1 amended: `validate_websites_batch` and
`check_gtm_adwords.analyze_leads` return exactly one output record per
input record, each carrying exactly one non-empty terminal status;
`find_emails.enrich_leads` instead returns `min max_leads len(input)`
records (records beyond the max-leads limit are dropped). -/
theorem c1_completeness_amended (oV : Nat → Nat → VwOutcome) (mrV : Nat)
    (oG : Nat → DetOracle) (det : Detectors) (api : Nat → Option (String × Nat × Bool))
    (skip : Bool) (ml : Nat) (leads : List Lead) (i : Nat) (hi : i < leads.length) :
    (validate_websites_batch oV mrV leads).length = leads.length ∧
    (CheckGtm.analyze_leads oG det leads).length = leads.length ∧
    (FindEmails.enrich_leads api leads ml skip).1.length = min ml leads.length ∧
    (leadGetD ((validate_websites_batch oV mrV leads).getD i []) "website_status" ∈ vwStatuses ∧
     leadGetD ((validate_websites_batch oV mrV leads).getD i []) "website_status" ≠ "") ∧
    (leadGetD ((CheckGtm.analyze_leads oG det leads).getD i []) "tracking_analysis_status" ∈
        (["analyzed", "failed", "no_website"] : List String) ∧
     leadGetD ((CheckGtm.analyze_leads oG det leads).getD i []) "tracking_analysis_status" ≠ "") := by
  have hx : leads[i]? = some (leads.getD i []) := by
    rw [List.getD_eq_getElem leads [] hi, List.getElem?_eq_getElem hi]
  have hvget : (validate_websites_batch oV mrV leads).getD i [] =
      vwExpected oV mrV i (leads.getD i []) := by
    rw [List.getD_eq_getElem?_getD, vw_batch_getElem, hx]
    rfl
  have hgget : (CheckGtm.analyze_leads oG det leads).getD i [] =
      CheckGtm.gtmExpect oG det i (leads.getD i []) := by
    rw [List.getD_eq_getElem?_getD, gtm_analyze_getElem, hx]
    rfl
  refine ⟨vw_batch_length oV mrV leads, gtm_analyze_length oG det leads, ?_, ?_, ?_⟩
  · unfold FindEmails.enrich_leads
    rw [feGo_length, List.length_take]
  · rw [hvget]
    unfold vwExpected vwAnnot
    rw [leadGetD_set_self]
    refine ⟨validate_website_status_mem _ _ _, ?_⟩
    exact vwStatuses_ne_empty _ (validate_website_status_mem _ _ _)
  · rw [hgget]
    refine ⟨gtm_status_mem oG det i _, ?_⟩
    have h := gtm_status_mem oG det i (leads.getD i [])
    revert h
    generalize leadGetD (CheckGtm.gtmExpect oG det i (leads.getD i [])) "tracking_analysis_status" = s
    intro h
    simp only [List.mem_cons, List.not_mem_nil, or_false] at h
    rcases h with h | h | h <;> subst h <;> decide

/-- Witness for C1 (amended) on a one-record collection. -/
theorem c1_completeness_amended_witness :
    (0 < ([leadW] : List Lead).length) ∧
    ((validate_websites_batch vwOracleW 3 [leadW]).length = ([leadW] : List Lead).length ∧
     (CheckGtm.analyze_leads detOracleW noDetectors [leadW]).length = ([leadW] : List Lead).length ∧
     (FindEmails.enrich_leads apiW [leadW] 5 true).1.length = min 5 ([leadW] : List Lead).length ∧
     (leadGetD ((validate_websites_batch vwOracleW 3 [leadW]).getD 0 []) "website_status" ∈ vwStatuses ∧
      leadGetD ((validate_websites_batch vwOracleW 3 [leadW]).getD 0 []) "website_status" ≠ "") ∧
     (leadGetD ((CheckGtm.analyze_leads detOracleW noDetectors [leadW]).getD 0 []) "tracking_analysis_status" ∈
         (["analyzed", "failed", "no_website"] : List String) ∧
      leadGetD ((CheckGtm.analyze_leads detOracleW noDetectors [leadW]).getD 0 []) "tracking_analysis_status" ≠ "")) :=
  ⟨by decide, c1_completeness_amended vwOracleW 3 detOracleW noDetectors apiW true 5 [leadW] 0 (by decide)⟩

/-- C3 counterexample: with `max_retries = 3`, `validate_website`
attempts a permanently timing-out call 4 times (one initial attempt
plus three retries), not exactly `max_retries` times. -/
theorem c3_counterexample :
    validate_website (fun _ => VwOutcome.timeout) "https://a.com" 3 = ("timeout", 4) := by
  decide

/-- C3 amended: every persistently transient call terminates in a
terminal failure status after a bounded number of attempts, but the
count is exactly `max_retries` only in some cases.  `validate_website`
spends `max_retries + 1` attempts (one initial attempt plus
`max_retries` retries) on persistent timeouts, connection resets
(plain `RequestException`) and Cloudflare-flagged 429s — yet fails a
non-Cloudflare 429 response immediately as `invalid` after one
attempt.  `detect_gtm_and_ads` spends its `max_retries = 2` attempts
on persistent timeouts and non-200 responses (429 included) — but
`break`s after a single attempt on a connection reset.
`analyze_pagespeed` spends its `max_retries = 3` attempts on
persistent timeouts and 429s — but its generic exception handler fails
a connection reset after a single attempt. -/
theorem c3_retry_bound_amended (url : String) (mr : Nat)
    (fb fb2 fb3 : Nat → Option (Nat × String)) (det det2 det3 : Detectors)
    (hurl : url ≠ "") :
    validate_website (fun _ => VwOutcome.timeout) url mr = ("timeout", mr + 1) ∧
    validate_website (fun _ => VwOutcome.reqExc false false) url mr = ("unknown", mr + 1) ∧
    validate_website (fun _ => VwOutcome.ok 429 true false) url mr = ("blocked", mr + 1) ∧
    validate_website (fun _ => VwOutcome.ok 429 false false) url mr = ("invalid", 1) ∧
    detect_gtm_and_ads ⟨fun _ => HttpOutcome.timeout, fb⟩ det = (failedResult, 2) ∧
    detect_gtm_and_ads ⟨fun _ => HttpOutcome.ok 429 "", fb2⟩ det2 = (failedResult, 2) ∧
    detect_gtm_and_ads ⟨fun _ => HttpOutcome.connError, fb3⟩ det3 = (failedResult, 1) ∧
    analyze_pagespeed (fun _ => PsOutcome.timeout) = ((none, none, "failed"), 3) ∧
    analyze_pagespeed (fun _ => PsOutcome.ok 429 none none) = ((none, none, "failed"), 3) ∧
    analyze_pagespeed (fun _ => PsOutcome.exc) = ((none, none, "failed"), 1) := by
  refine ⟨?_, ?_, ?_, ?_, rfl, ?_, rfl, ?_, ?_, rfl⟩
  · unfold validate_website
    rw [if_neg hurl]
    exact vwGo_timeout_const mr 0
  · unfold validate_website
    rw [if_neg hurl]
    exact vwGo_reqExc_const mr 0
  · unfold validate_website
    rw [if_neg hurl]
    exact vwGo_cf429_const mr 0
  · unfold validate_website
    rw [if_neg hurl]
    exact vwGo_invalid _ mr 429 0 rfl (by decide)
  · exact detGo_non200 _ det2 429 "" (fun _ => rfl) (by decide)
  · exact psGo_timeout_const 3 0 0
  · exact psGo_429_const 3 0 0

/-- Witness for C3 (amended) at `max_retries = 3`. -/
theorem c3_retry_bound_witness :
    ("https://a.com" ≠ "") ∧
    (validate_website (fun _ => VwOutcome.timeout) "https://a.com" 3 = ("timeout", 3 + 1) ∧
     validate_website (fun _ => VwOutcome.reqExc false false) "https://a.com" 3 = ("unknown", 3 + 1) ∧
     validate_website (fun _ => VwOutcome.ok 429 true false) "https://a.com" 3 = ("blocked", 3 + 1) ∧
     validate_website (fun _ => VwOutcome.ok 429 false false) "https://a.com" 3 = ("invalid", 1) ∧
     detect_gtm_and_ads ⟨fun _ => HttpOutcome.timeout, fun _ => none⟩ noDetectors = (failedResult, 2) ∧
     detect_gtm_and_ads ⟨fun _ => HttpOutcome.ok 429 "", fun _ => none⟩ noDetectors = (failedResult, 2) ∧
     detect_gtm_and_ads ⟨fun _ => HttpOutcome.connError, fun _ => none⟩ noDetectors = (failedResult, 1) ∧
     analyze_pagespeed (fun _ => PsOutcome.timeout) = ((none, none, "failed"), 3) ∧
     analyze_pagespeed (fun _ => PsOutcome.ok 429 none none) = ((none, none, "failed"), 3) ∧
     analyze_pagespeed (fun _ => PsOutcome.exc) = ((none, none, "failed"), 1)) :=
  ⟨by decide,
   c3_retry_bound_amended "https://a.com" 3 (fun _ => none) (fun _ => none) (fun _ => none)
     noDetectors noDetectors noDetectors (by decide)⟩

/-- C6 counterexample: `detect_gtm_and_ads` on a page that answers 404
to every request performs a *second* attempt (2 requests issued) and
ends in the generic `failed` default rather than an immediate one-shot
`invalid`-kind terminal failure. -/
theorem c6_counterexample :
    detect_gtm_and_ads det404 noDetectors = (failedResult, 2) := by decide

/-- C6 amended: `validate_website` fails a non-2xx response that is not
flagged as Cloudflare/CloudFront immediately with `invalid` after one
attempt, but retries a Cloudflare-flagged 403 to the full budget and
ends `blocked`; `analyze_pagespeed` fails any non-429, non-200 response
after one request; and `detect_gtm_and_ads` retries non-200 responses,
spending both attempts before ending `failed`. -/
theorem c6_http_4xx_amended (o : Nat → VwOutcome) (oP : Nat → PsOutcome) (oD : DetOracle)
    (det : Detectors) (url html : String) (mr code codeP codeD : Nat)
    (perf seo : Option Nat) (hurl : url ≠ "")
    (hvw : o 0 = VwOutcome.ok code false false) (hcode : ¬ (200 ≤ code ∧ code < 300))
    (hps : oP 0 = PsOutcome.ok codeP perf seo) (hp429 : codeP ≠ 429) (hp200 : codeP ≠ 200)
    (hd : ∀ a, oD.fetch a = HttpOutcome.ok codeD html) (hd200 : codeD ≠ 200) :
    validate_website o url mr = ("invalid", 1) ∧
    analyze_pagespeed oP = ((none, none, "failed"), 1) ∧
    detect_gtm_and_ads oD det = (failedResult, 2) ∧
    validate_website (fun _ => VwOutcome.ok 403 true false) url mr = ("blocked", mr + 1) := by
  refine ⟨?_, ?_, detGo_non200 oD det codeD html hd hd200, ?_⟩
  · unfold validate_website
    rw [if_neg hurl]
    exact vwGo_invalid o mr code 0 hvw hcode
  · exact psGo_non200 oP 2 codeP perf seo 0 0 hps hp429 hp200
  · unfold validate_website
    rw [if_neg hurl]
    exact vwGo_cf403_const mr 0

/-- Witness for C6 (amended) at 404 responses. -/
theorem c6_http_4xx_witness :
    validate_website (fun _ => VwOutcome.ok 404 false false) "https://a.com" 3 = ("invalid", 1) ∧
    analyze_pagespeed (fun _ => PsOutcome.ok 404 none none) = ((none, none, "failed"), 1) ∧
    detect_gtm_and_ads det404 noDetectors = (failedResult, 2) ∧
    validate_website (fun _ => VwOutcome.ok 403 true false) "https://a.com" 3 = ("blocked", 3 + 1) :=
  c6_http_4xx_amended (fun _ => VwOutcome.ok 404 false false) (fun _ => PsOutcome.ok 404 none none)
    det404 noDetectors "https://a.com" "" 3 404 404 404 none none
    (by decide) rfl (by decide) rfl (by decide) (by decide) (fun _ => rfl) (by decide)

/-- C7 counterexample: in `validate_websites_batch` a record with no
resolvable website IS submitted to the executor (`url_lead_pairs`
enumerates every record, so it occupies a future/worker slot), even
though the empty-URL call itself makes zero HTTP attempts and returns
`no_url`. -/
theorem c7_counterexample :
    vwSubmitted [([] : Lead)] = [(0, "", ([] : Lead))] ∧
    validate_website (fun _ => VwOutcome.otherExc) "" 3 = ("no_url", 0) := by decide

/-- C7 amended: in `check_gtm_adwords.analyze_leads` an unresolvable
record is never submitted to the pool and is annotated `no_website`;
in `validate_websites_batch` every record (resolvable or not) is
submitted to the executor, whose empty-URL path returns `no_url` with
zero external calls. -/
theorem c7_ineligible_bypass_amended (oG : Nat → DetOracle) (det : Detectors)
    (o : Nat → VwOutcome) (leads : List Lead) (i : Nat)
    (hi : i < leads.length) (hnw : get_website_from_lead (leads.getD i []) = none) :
    (¬ ∃ t ∈ CheckGtm.url_lead_pairs leads, t.1 = i) ∧
    leadGetD ((CheckGtm.analyze_leads oG det leads).getD i []) "tracking_analysis_status"
      = "no_website" ∧
    (vwSubmitted leads).length = leads.length ∧
    (∀ mr, validate_website o "" mr = ("no_url", 0)) := by
  have hx : leads[i]? = some (leads.getD i []) := by
    rw [List.getD_eq_getElem leads [] hi, List.getElem?_eq_getElem hi]
  refine ⟨?_, ?_, ?_, fun mr => rfl⟩
  · rintro ⟨t, ht, hti⟩
    unfold CheckGtm.url_lead_pairs at ht
    rw [List.mem_filterMap] at ht
    obtain ⟨p, hp, hpt⟩ := ht
    cases hw : get_website_from_lead p.2 with
    | none => rw [hw] at hpt; cases hpt
    | some w =>
      rw [hw] at hpt
      simp only [Option.map_some'] at hpt
      injection hpt with hpt2
      obtain ⟨i', x⟩ := p
      have hm := List.mem_enum hp
      have hii : i' = i := by
        have h3 : i' = t.1 := congrArg Prod.fst hpt2
        exact h3.trans hti
      subst hii
      have hg : leads.getD i' [] = x := by
        rw [List.getD_eq_getElem leads [] hi]
        exact hm.2.symm
      rw [hg] at hnw
      rw [hnw] at hw
      cases hw
  · rw [List.getD_eq_getElem?_getD, gtm_analyze_getElem, hx]
    show leadGetD (CheckGtm.gtmExpect oG det i (leads.getD i [])) _ = _
    unfold CheckGtm.gtmExpect
    rw [hnw]
    unfold CheckGtm.gtmAnnotNW
    rw [leadGetD_set_self]
  · unfold vwSubmitted
    rw [List.length_map, List.enum_length]

/-- Witness for C7 (amended) on a collection holding one empty record. -/
theorem c7_ineligible_bypass_witness :
    (0 < ([([] : Lead)] : List Lead).length ∧
     get_website_from_lead (([([] : Lead)] : List Lead).getD 0 []) = none) ∧
    ((¬ ∃ t ∈ CheckGtm.url_lead_pairs [([] : Lead)], t.1 = 0) ∧
     leadGetD ((CheckGtm.analyze_leads detOracleW noDetectors [([] : Lead)]).getD 0 [])
        "tracking_analysis_status" = "no_website" ∧
     (vwSubmitted [([] : Lead)]).length = ([([] : Lead)] : List Lead).length ∧
     (∀ mr, validate_website (fun _ => VwOutcome.otherExc) "" mr = ("no_url", 0))) :=
  ⟨⟨by decide, by decide⟩,
   c7_ineligible_bypass_amended detOracleW noDetectors (fun _ => VwOutcome.otherExc)
     [([] : Lead)] 0 (by decide) (by decide)⟩

/-- A declined gate response is in particular not the literal `yes`. -/
theorem not_affirmative_ne_yes {resp : String}
    (h : FindEmails.affirmative resp = false) : pyLower (pyStrip resp) ≠ "yes" := by
  unfold FindEmails.affirmative at h
  simp only [Bool.or_eq_false_iff, beq_eq_false_iff_ne] at h
  exact h.1

/-- C5: when the interactive confirmation is declined, both paid-API
pipelines terminate with zero API calls dispatched and no output
written (the gate runs before any `CallExecutor` invocation). -/
theorem c5_cost_gate (resp : String) (api : Nat → Option (String × Nat × Bool))
    (leads leads' : List Lead) (ml ml' : Nat) (skip : Bool)
    (h : FindEmails.affirmative resp = false) :
    FindEmails.find_emails_main resp api leads ml skip = ⟨0, false⟩ ∧
    Outscraper.outscraper_main resp leads' ml' = ⟨0, false⟩ := by
  constructor
  · unfold FindEmails.find_emails_main
    rw [if_neg (by rw [h]; exact Bool.false_ne_true)]
  · unfold Outscraper.outscraper_main Outscraper.enrich_leads
    have hne := not_affirmative_ne_yes h
    simp [hne]

/-- Witness for C5 at the declined response `"no"`. -/
theorem c5_cost_gate_witness :
    FindEmails.affirmative "no" = false ∧
    (FindEmails.find_emails_main "no" apiW [leadW] 5 true = ⟨0, false⟩ ∧
     Outscraper.outscraper_main "no" [leadW] 5 = ⟨0, false⟩) :=
  ⟨by decide, c5_cost_gate "no" apiW [leadW] [leadW] 5 5 true (by decide)⟩

/-- C9 counterexample: on a record whose first website alias holds a
whitespace-only value, `get_field_value` and `get_website_url` select
that truthy value and return the empty string instead of passing over
to the later alias holding `example.com`, which the specified resolver
returns. -/
theorem c9_counterexample :
    get_field_value leadWsC9 FindEmails.feKeysDomain = "" ∧
    get_website_url leadWsC9 = "" ∧
    resolveSpecFirst leadWsC9 FindEmails.feKeysDomain = some "example.com" := by decide

/-- C9 amended: `get_website_from_lead` implements the specified
resolver (first candidate whose value is non-empty after trimming,
then URL-normalized, whitespace-only values passed over), while
`get_field_value` and `get_website_url` select the first candidate
whose *untrimmed* value is non-empty: `get_field_value` returns its
trimmed value and `get_website_url` its trimmed, https-normalized
value — so a whitespace-only value is not passed over and yields the
empty string in both. -/
theorem c9_field_resolver_amended (lead : Lead) (keys : List String) :
    get_website_from_lead lead = (resolveSpecFirst lead website_fields).map normalizeWebsite ∧
    get_field_value lead keys = ((firstTruthy lead keys).map pyStrip).getD "" ∧
    get_website_url lead = vwNormalizeUrl ((firstTruthy lead vwUrlKeys).getD "") :=
  ⟨gwfl_go_eq_spec lead website_fields, gfv_eq_truthy lead keys,
   get_website_url_eq_truthy lead⟩

set_option maxRecDepth 100000 in
/-- C4 counterexample: in the refuting run there is a trailing 100 s
window (starting at millisecond 1257) that contains 401 dispatched
calls — more than the configured ceiling of 400.  The limiter's length
check does run before each dispatch, but on trigger it clears the whole
window after waiting out only the oldest entry, forgetting 389
still-in-window dispatches. -/
theorem c4_counterexample :
    MAX_REQUESTS_PER_100_SEC < windowCount (psRun durC4 psInit leadsC4).log 1257 := by
  rw [c4_run_eq]
  decide

/-- C4 amended: the bookkeeping list `request_times` is pruned and its
length checked *before* each dispatch, so it never exceeds
`MAX_REQUESTS_PER_100_SEC - 10` entries (in particular never the
ceiling 400); but this does not bound the dispatch count of every
trailing 100 s window (see the counterexample). -/
theorem c4_rate_window_amended (dur : Nat → Nat) (s : PsState) (leads : List Lead)
    (h : s.reqTimes.length ≤ MAX_REQUESTS_PER_100_SEC - 10) :
    (psRun dur s leads).reqTimes.length ≤ MAX_REQUESTS_PER_100_SEC - 10 ∧
    (psRun dur s leads).reqTimes.length ≤ MAX_REQUESTS_PER_100_SEC := by
  have main : ∀ (t : PsState), t.reqTimes.length ≤ MAX_REQUESTS_PER_100_SEC - 10 →
      (psRun dur t leads).reqTimes.length ≤ MAX_REQUESTS_PER_100_SEC - 10 := by
    induction leads with
    | nil => intro t h2; exact h2
    | cons lead rest ih =>
      intro t h2
      unfold psRun
      cases hw : get_website_from_lead lead <;> simp only [hw]
      · exact ih t h2
      · exact ih _ (psLeadStep_reqTimes_le dur t _)
  refine ⟨main s h, le_trans (main s h) (by decide)⟩

/-- Witness for C4 (amended) from the initial state. -/
theorem c4_rate_window_witness :
    psInit.reqTimes.length ≤ MAX_REQUESTS_PER_100_SEC - 10 ∧
    ((psRun durC4 psInit [lwC4]).reqTimes.length ≤ MAX_REQUESTS_PER_100_SEC - 10 ∧
     (psRun durC4 psInit [lwC4]).reqTimes.length ≤ MAX_REQUESTS_PER_100_SEC) :=
  ⟨by decide, c4_rate_window_amended durC4 psInit [lwC4] (by decide)⟩
